import Mathlib

/-!
Verification development for the factory / inventory management system
(`src/app.py`, a Flask + SQLite + pandas application).

The development is a shallow embedding of the parts of `app.py` the
specification's claims are about:

* the date normalizer `parse_excel_date` (app.py lines 13-48);
* the BALANCE-row cleaning step of `import_stock` (lines 777-785), embedded
  as `clean_balance`, including the exact semantics of
  `pandas.to_numeric(..., errors='coerce')`, the row filter, and
  `groupby('S.NO.').first().reset_index()` (which sorts by the group key and
  takes, column-wise, the first non-null value of each group);
* the relational store (a `products` table plus an append-only
  `InventoryTransactions` table with AUTOINCREMENT counters), embedded as
  `Store`;
* the mutating routes `record_purchase`, `record_sale`, `add_transaction`
  and the full reconciliation `import_stock` (with the commit/rollback
  boundaries of the SQLite connection made explicit);
* the read-side projections `filter_transactions` and
  `get_stock_issues_date_range`.

Modelling conventions, stated once:

* Machine floats that pandas produces from Excel cells are modelled as `ℚ`
  (every float is a rational; the claims only exercise sign tests, equality
  with zero, and Python `int()` truncation, all exact on `ℚ`).
* Python `int()` truncates toward zero; this is `Int.tdiv` on a rational's
  numerator and denominator (`pyTrunc`).
* A raw spreadsheet cell is `Cell`: absent (`NaN`), a number, or text.
  Spreadsheet row identifiers (the `S.NO.` column) are modelled as
  `Option ℤ` (an integer column, or an absent cell), matching the integer
  identifiers the spec's examples use.
* SQLite timestamps: entries inserted without an explicit timestamp get
  `CURRENT_TIMESTAMP` (modelled as a `Timestamp` parameter `now` of each
  mutating operation); `import_stock` stores explicit date-only strings for
  the replayed movement entries (`ts.time = none`).  `DATE(timestamp)` is
  the `date` component, and SQLite's lexicographic `ORDER BY timestamp` on
  the stored ISO strings coincides with the order of `tsKey`.
* The third-party `dateutil.parser.parse(s, dayfirst=True)` fallback is not
  part of this repository; it is kept as an explicit function parameter
  `fallback` of every definition that reaches it, and concrete theorems
  instantiate it (the spec fixes only that it fails on non-date labels such
  as "TOTAL").
* The SQLite connection never enables `PRAGMA foreign_keys`, so declared
  foreign keys are not enforced: inserts referencing absent products
  succeed, exactly as in `add_transaction`.
-/

/-- Calendar date, the result of Python `datetime.date` (year, month, day). -/
structure ExDate where
  year : ℕ
  month : ℕ
  day : ℕ
deriving DecidableEq, Repr

/-- Proleptic Gregorian leap-year rule used by Python `datetime`. -/
def isLeap (y : ℕ) : Bool :=
  y % 4 == 0 && (y % 100 != 0 || y % 400 == 0)

/-- Number of days of month `m` in year `y` (Python `calendar` rule). -/
def daysInMonth (y m : ℕ) : ℕ :=
  if m = 2 then (if isLeap y then 29 else 28)
  else if m = 4 ∨ m = 6 ∨ m = 9 ∨ m = 11 then 30
  else 31

/-- Validity check performed by the `datetime.date` constructor:
`MINYEAR ≤ y ≤ MAXYEAR` and the day exists in the month.  (The month and
day lower bounds are also guaranteed by the `%d`/`%m` patterns below.) -/
def validDate (y m d : ℕ) : Bool :=
  decide (1 ≤ y ∧ y ≤ 9999 ∧ 1 ≤ m ∧ m ≤ 12 ∧ 1 ≤ d ∧ d ≤ daysInMonth y m)

/-- Splits a character list on a separator character, keeping empty groups,
so that `chSplit '.' "2.7.25" = ["2","7","25"]`.  Because none of the
`strptime` field patterns below can match the separator character, matching
the whole string against `d sep m sep y` is equivalent to splitting on the
separator and matching the three groups. -/
def chSplit (sep : Char) : List Char → List (List Char)
  | [] => [[]]
  | c :: rest =>
    let r := chSplit sep rest
    if c = sep then [] :: r
    else
      match r with
      | [] => [[c]]
      | g :: gs => (c :: g) :: gs

/-- True when the group is nonempty and all decimal digits. -/
def allDigits (l : List Char) : Bool :=
  !l.isEmpty && l.all Char.isDigit

/-- Numeric value of a group of decimal digits. -/
def digitsVal (l : List Char) : ℕ :=
  l.foldl (fun acc c => acc * 10 + (c.toNat - '0'.toNat)) 0

/-- CPython `_strptime` field `%d`: one or two digits with value 1..31. -/
def parseDayGroup (g : List Char) : Option ℕ :=
  if allDigits g ∧ g.length ≤ 2 then
    let v := digitsVal g
    if 1 ≤ v ∧ v ≤ 31 then some v else none
  else none

/-- CPython `_strptime` field `%m`: one or two digits with value 1..12. -/
def parseMonthGroup (g : List Char) : Option ℕ :=
  if allDigits g ∧ g.length ≤ 2 then
    let v := digitsVal g
    if 1 ≤ v ∧ v ≤ 12 then some v else none
  else none

/-- CPython `_strptime` field `%y`: exactly two digits; values 0..68 map to
2000..2068 and 69..99 map to 1969..1999. -/
def parseY2Group (g : List Char) : Option ℕ :=
  if allDigits g ∧ g.length = 2 then
    let v := digitsVal g
    some (if v ≤ 68 then 2000 + v else 1900 + v)
  else none

/-- CPython `_strptime` field `%Y`: exactly four digits. -/
def parseY4Group (g : List Char) : Option ℕ :=
  if allDigits g ∧ g.length = 4 then some (digitsVal g) else none

/-- One `datetime.datetime.strptime(s, fmt).date()` attempt for the
day-first formats of `parse_excel_date` (app.py lines 28-33): `fmt` is
`%d<sep>%m<sep>%y` (or `%Y` when `fourDigitYear`).  Returns `none` where
CPython raises `ValueError` (pattern mismatch, leftover input, or an
invalid calendar date). -/
def strptime_dmy (sep : Char) (fourDigitYear : Bool) (s : List Char) : Option ExDate :=
  match chSplit sep s with
  | [ds, ms, ys] =>
    match parseDayGroup ds, parseMonthGroup ms,
          (if fourDigitYear then parseY4Group ys else parseY2Group ys) with
    | some d, some m, some y => if validDate y m d then some ⟨y, m, d⟩ else none
    | _, _, _ => none
  | _ => none

/-- The ordered format list of `parse_excel_date` (app.py lines 28-33):
`%d.%m.%y`, `%d/%m/%y`, `%d.%m.%Y`, `%d/%m/%Y`, each given as separator
character and a four-digit-year flag. -/
def date_formats : List (Char × Bool) :=
  [('.', false), ('/', false), ('.', true), ('/', true)]

/-- The `for fmt in formats` loop of `parse_excel_date` (app.py lines
35-39): try each format in order, returning the first success. -/
def first_format : List (Char × Bool) → List Char → Option ExDate
  | [], _ => none
  | (sep, fy) :: rest, s =>
    match strptime_dmy sep fy s with
    | some d => some d
    | none => first_format rest s

/-- Python `str.strip()`: remove leading and trailing whitespace. -/
def pyStrip (s : String) : String :=
  String.mk (((s.data.dropWhile Char.isWhitespace).reverse.dropWhile Char.isWhitespace).reverse)

/-- A value reaching `parse_excel_date`: pandas `NaN`, a native
`datetime.datetime` (date plus a time-of-day), a string, or any other
value (e.g. a number), which the function answers with `None`. -/
inductive ExcelVal where
  | na : ExcelVal
  | dt (d : ExDate) (secs : ℕ) : ExcelVal
  | str (s : String) : ExcelVal
  | other : ExcelVal
deriving DecidableEq, Repr

/-- The date normalizer `parse_excel_date` (app.py lines 13-48).  `fallback`
stands for the external `dateutil.parser.parse(s, dayfirst=True)` lenient
parser (wrapped in a bare `except: pass`, so in the source a fallback
failure also yields `None`; here it is already an `Option`).  The function
is total: every raise of the original is a `none`. -/
def parse_excel_date (fallback : String → Option ExDate) (v : ExcelVal) : Option ExDate :=
  match v with
  | .na => none
  | .dt d _ => some d
  | .str s =>
    let t := pyStrip s
    if t.data.isEmpty then none
    else
      match first_format date_formats t.data with
      | some d => some d
      | none => fallback t
  | .other => none

example : parse_excel_date (fun _ => none) (.str "2.7.25") = some ⟨2025, 7, 2⟩ := by decide
example : parse_excel_date (fun _ => none) (.str "18/7/25") = some ⟨2025, 7, 18⟩ := by decide
example : parse_excel_date (fun _ => none) (.str " 19.07.2025 ") = some ⟨2025, 7, 19⟩ := by decide
example : parse_excel_date (fun _ => none) (.str "TOTAL") = none := by decide
example : parse_excel_date (fun _ => none) (.str "31.2.25") = none := by decide
example : parse_excel_date (fun _ => none) (.str "") = none := by decide

/-- Spreadsheet cell as pandas materializes it: `NaN` (absent), a numeric
value (floats modelled as `ℚ`), or text. -/
inductive Cell where
  | na : Cell
  | num (q : ℚ) : Cell
  | str (s : String) : Cell
deriving DecidableEq, Repr

/-- Python `int()` applied to a float: truncation toward zero. -/
def pyTrunc (q : ℚ) : ℤ :=
  Int.tdiv q.num (q.den : ℤ)

/-- Python `int()` applied to a string: optional surrounding whitespace,
optional sign, decimal digits; anything else raises `ValueError` (`none`). -/
def pyIntOfString (s : String) : Option ℤ :=
  match (pyStrip s).data with
  | '-' :: rest => if allDigits rest then some (-(digitsVal rest : ℤ)) else none
  | '+' :: rest => if allDigits rest then some ((digitsVal rest : ℤ)) else none
  | l => if allDigits l then some ((digitsVal l : ℤ)) else none

/-- Unsigned decimal literal `digits [. digits]` (also `digits.` and
`.digits`), as accepted by both Python `float()` and
`pandas.to_numeric`; exponent and inf/nan spellings are not exercised by
any claim and are mapped to failure. -/
def parseUnsignedDecimal (l : List Char) : Option ℚ :=
  match chSplit '.' l with
  | [ip] => if allDigits ip then some (mkRat (digitsVal ip) 1) else none
  | [ip, fp] =>
    if (ip.all Char.isDigit ∧ fp.all Char.isDigit ∧ ¬(ip = [] ∧ fp = [])) then
      some (mkRat (digitsVal ip * 10 ^ fp.length + digitsVal fp) (10 ^ fp.length))
    else none
  | _ => none

/-- Python `float()` applied to a string (`none` where CPython raises). -/
def pyFloatOfString (s : String) : Option ℚ :=
  match (pyStrip s).data with
  | '-' :: rest => (parseUnsignedDecimal rest).map (fun q => -q)
  | '+' :: rest => parseUnsignedDecimal rest
  | l => parseUnsignedDecimal l

/-- `pandas.to_numeric(x, errors='coerce')` on one cell: numbers pass
through, parseable text becomes a number, everything else becomes `NaN`. -/
def to_numeric : Cell → Cell
  | .na => .na
  | .num q => .num q
  | .str s =>
    match pyFloatOfString s with
    | some q => .num q
    | none => .na

/-- A raw row of the BALANCE sheet: the columns `import_stock` reads
(`S.NO.`, `DESCRIPTION`, `UNIT`, `OPENING`, `RECEIPT`, `ISSUE`,
`BALANCE`).  The row identifier is an integer column or absent. -/
structure BRow where
  s_no : Option ℤ
  description : Cell
  unit : Cell
  opening : Cell
  receipt : Cell
  issue : Cell
  balance : Cell
deriving DecidableEq, Repr

/-- The `DESCRIPTION` part of the row filter of `import_stock` (app.py
lines 779-783): `~df['DESCRIPTION'].isin(['0', 0]) &
df['DESCRIPTION'].notna()`. -/
def descriptionKept (c : Cell) : Bool :=
  !(c == Cell.str "0" || c == Cell.num 0) && !(c == Cell.na)

/-- The full row filter of `import_stock` (applied after the `OPENING`
column has been coerced by `to_numeric`): description kept and coerced
opening not `NaN`. -/
def rowKept (r : BRow) : Bool :=
  descriptionKept r.description && !(r.opening == Cell.na)

/-- Column coercion `df_balance['OPENING'] =
pd.to_numeric(df_balance['OPENING'], errors='coerce')` (app.py line 778),
restricted to one row. -/
def coerceOpening (r : BRow) : BRow :=
  { r with opening := to_numeric r.opening }

/-- `DataFrameGroupBy.first()` semantics for one column: the first
non-null value of the group, or null when the group has none. -/
def first_nonnull (l : List Cell) : Cell :=
  (l.find? (fun c => !(c == Cell.na))).getD Cell.na

/-- The aggregated row `groupby('S.NO.').first()` produces for the key `k`
from the group `grp`: column-wise first non-null values. -/
def groupFirst (k : ℤ) (grp : List BRow) : BRow :=
  { s_no := some k
    description := first_nonnull (grp.map (·.description))
    unit := first_nonnull (grp.map (·.unit))
    opening := first_nonnull (grp.map (·.opening))
    receipt := first_nonnull (grp.map (·.receipt))
    issue := first_nonnull (grp.map (·.issue))
    balance := first_nonnull (grp.map (·.balance)) }

/-- Step 3 of `import_stock` (app.py lines 777-785): coerce `OPENING`,
filter the rows, then `groupby('S.NO.').first().reset_index()`.  pandas
`groupby` drops null keys, sorts the group keys ascending (`sort=True` is
its default), and `first()` takes each column's first non-null value, so
the cleaned output lists one aggregated row per distinct identifier in
ascending identifier order. -/
def clean_balance (rows : List BRow) : List BRow :=
  let valid := (rows.map coerceOpening).filter rowKept
  let keys := List.insertionSort (· ≤ ·) (valid.filterMap (fun r => r.s_no)).dedup
  keys.map (fun k => groupFirst k (valid.filter (fun r => r.s_no == some k)))

example : (0 : ℚ) = mkRat 0 1 := by decide

example :
    clean_balance
      [⟨some 7, Cell.str "A", Cell.na, Cell.num (mkRat 1 1), Cell.na, Cell.na, Cell.na⟩,
       ⟨some 3, Cell.str "B", Cell.str "kg", Cell.num (mkRat 2 1), Cell.na, Cell.na, Cell.na⟩,
       ⟨some 7, Cell.str "C", Cell.str "pc", Cell.num (mkRat 5 1), Cell.na, Cell.na, Cell.na⟩] =
      [⟨some 3, Cell.str "B", Cell.str "kg", Cell.num (mkRat 2 1), Cell.na, Cell.na, Cell.na⟩,
       ⟨some 7, Cell.str "A", Cell.str "pc", Cell.num (mkRat 1 1), Cell.na, Cell.na, Cell.na⟩] := by
  decide

example :
    clean_balance
      [⟨some 1, Cell.str "W", Cell.na, Cell.str "2.5", Cell.na, Cell.na, Cell.na⟩] =
      [⟨some 1, Cell.str "W", Cell.na, Cell.num (mkRat 5 2), Cell.na, Cell.na, Cell.na⟩] := by
  decide

/-- A value of the `InventoryTransactions.timestamp` column: either the
`CURRENT_TIMESTAMP` default `YYYY-MM-DD HH:MM:SS` (a date plus a
time-of-day, `time = some secs`) or the date-only string `YYYY-MM-DD`
that `import_stock` stores for replayed movements (`time = none`). -/
structure Timestamp where
  date : ExDate
  time : Option ℕ
deriving DecidableEq, Repr

/-- Numeric key whose order is the calendar order of dates; for the stored
zero-padded ISO strings this is exactly SQLite's lexicographic string
order on `DATE(timestamp)`. -/
def dateKey (d : ExDate) : ℕ :=
  d.year * 10000 + d.month * 100 + d.day

/-- Numeric key whose order is SQLite's lexicographic string order on the
stored `timestamp` column: dates compare first, and a date-only string
sorts before every timed string of the same day (it is a strict prefix). -/
def tsKey (t : Timestamp) : ℕ :=
  dateKey t.date * 100000 + (match t.time with | none => 0 | some s => s + 1)

/-- A row of the `products` table (app.py lines 66-77). -/
structure Product where
  id : ℤ
  sku : String
  name : String
  unit : String
  opening : ℤ
  receipt : ℤ
  issue : ℤ
  balance : ℤ
deriving DecidableEq, Repr

/-- A row of the `InventoryTransactions` table (app.py lines 100-110). -/
structure TxEntry where
  id : ℤ
  product_id : ℤ
  type : String
  quantity_change : ℤ
  notes : String
  timestamp : Timestamp
deriving DecidableEq, Repr

/-- The relational store: both tables plus their AUTOINCREMENT counters
(the `sqlite_sequence` rows). -/
structure Store where
  products : List Product
  ledger : List TxEntry
  next_product_id : ℤ
  next_tx_id : ℤ
deriving DecidableEq, Repr

/-- Insert one transaction row with a generated id. -/
def insertTx (st : Store) (pid : ℤ) (ty : String) (qc : ℤ) (notes : String)
    (ts : Timestamp) : Store :=
  { st with
    ledger := st.ledger ++ [⟨st.next_tx_id, pid, ty, qc, notes, ts⟩]
    next_tx_id := st.next_tx_id + 1 }

/-- Derived stock: `SELECT COALESCE(SUM(quantity_change), 0) FROM
InventoryTransactions WHERE product_id = ?` (app.py lines 338-344). -/
def current_stock (st : Store) (pid : ℤ) : ℤ :=
  ((st.ledger.filter (fun e => e.product_id == pid)).map (fun e => e.quantity_change)).sum

/-- Python truthiness of an optional string field read from the request
JSON: `None` and `""` are falsy. -/
def strTruthy : Option String → Bool
  | none => false
  | some s => !s.data.isEmpty

/-- Note text built by `record_purchase` (app.py lines 277-283). -/
def purchaseNote (q : ℤ) (supplier notes : String) (tdate : Option String) : String :=
  let t1 := "Purchase: " ++ toString q ++ " units"
  let t2 := if supplier.data.isEmpty then t1 else t1 ++ " from " ++ supplier
  let t3 := if notes.data.isEmpty then t2 else t2 ++ " - " ++ notes
  match tdate with
  | some d => if d.data.isEmpty then t3 else t3 ++ " (Date: " ++ d ++ ")"
  | none => t3

/-- Note text built by `record_sale` (app.py lines 353-359). -/
def saleNote (q : ℤ) (customer notes : String) (tdate : Option String) : String :=
  let t1 := "Sale: " ++ toString q ++ " units"
  let t2 := if customer.data.isEmpty then t1 else t1 ++ " to " ++ customer
  let t3 := if notes.data.isEmpty then t2 else t2 ++ " - " ++ notes
  match tdate with
  | some d => if d.data.isEmpty then t3 else t3 ++ " (Date: " ++ d ++ ")"
  | none => t3

/-- Outcome of the `/api/purchase` and `/api/sale` routes: one constructor
per distinct `jsonify` response of the source. -/
inductive TxResult where
  | created (e : TxEntry)
  | errRequired
  | errNonPositive
  | errNotFound
  | errInsufficient (cur req : ℤ)
deriving DecidableEq, Repr

/-- `record_purchase` (app.py lines 240-298).  `now` is the database's
`CURRENT_TIMESTAMP`: the insert at line 285 names no timestamp column, so
the stored timestamp is the creation-time default and the optional `date`
field of the request only reaches the free-text note.  The Python falsy
test `if not product_id or not quantity` rejects the integer 0. -/
def record_purchase (now : Timestamp) (st : Store) (product_id quantity : ℤ)
    (supplier notes : String) (transaction_date : Option String) : TxResult × Store :=
  if product_id == 0 || quantity == 0 then (.errRequired, st)
  else if quantity ≤ 0 then (.errNonPositive, st)
  else
    match st.products.find? (fun p => p.id == product_id) with
    | none => (.errNotFound, st)
    | some _ =>
      let e : TxEntry := ⟨st.next_tx_id, product_id, "purchase", quantity,
        purchaseNote quantity supplier notes transaction_date, now⟩
      (.created e,
        { st with ledger := st.ledger ++ [e], next_tx_id := st.next_tx_id + 1 })

/-- `record_sale` (app.py lines 301-375): like `record_purchase` but with
the derived-stock guard `current_stock < quantity` (line 346) and a
negated stored quantity (line 363). -/
def record_sale (now : Timestamp) (st : Store) (product_id quantity : ℤ)
    (customer notes : String) (transaction_date : Option String) : TxResult × Store :=
  if product_id == 0 || quantity == 0 then (.errRequired, st)
  else if quantity ≤ 0 then (.errNonPositive, st)
  else
    match st.products.find? (fun p => p.id == product_id) with
    | none => (.errNotFound, st)
    | some _ =>
      let cur := current_stock st product_id
      if cur < quantity then (.errInsufficient cur quantity, st)
      else
        let e : TxEntry := ⟨st.next_tx_id, product_id, "sale", -quantity,
          saleNote quantity customer notes transaction_date, now⟩
        (.created e,
          { st with ledger := st.ledger ++ [e], next_tx_id := st.next_tx_id + 1 })

/-- Outcome of the `/api/transaction` route. -/
inductive AddTxResult where
  | ok (e : TxEntry)
  | errInvalidType
deriving DecidableEq, Repr

/-- `add_transaction` (app.py lines 718-752): inserts a purchase or sale
row with NO product-existence check (the connection never enables
`PRAGMA foreign_keys`, so the declared foreign key is not enforced), NO
positivity check, and NO stock check. -/
def add_transaction (now : Timestamp) (st : Store) (product_id : ℤ) (tx_type : String)
    (quantity : ℤ) : AddTxResult × Store :=
  if tx_type == "purchase" then
    let e : TxEntry := ⟨st.next_tx_id, product_id, "purchase", quantity,
      "Stock In (Purchase): " ++ toString quantity ++ " units", now⟩
    (.ok e, { st with ledger := st.ledger ++ [e], next_tx_id := st.next_tx_id + 1 })
  else if tx_type == "sale" then
    let e : TxEntry := ⟨st.next_tx_id, product_id, "sale", -quantity,
      "Stock Out (Sale): " ++ toString quantity ++ " units", now⟩
    (.ok e, { st with ledger := st.ledger ++ [e], next_tx_id := st.next_tx_id + 1 })
  else (.errInvalidType, st)

/-- The SQL `FROM InventoryTransactions t JOIN products p ON t.product_id
= p.id` shared by the read-side queries: a ledger entry joined with every
product row whose id matches (ids are unique in reachable states, and an
entry whose product is absent produces nothing). -/
def joinProducts (st : Store) : List (TxEntry × Product) :=
  st.ledger.flatMap (fun e =>
    (st.products.filter (fun p => p.id == e.product_id)).map (fun p => (e, p)))

/-- The `ORDER BY t.timestamp DESC` relation: later timestamps first. -/
def tsDesc (a b : TxEntry × Product) : Prop :=
  tsKey b.1.timestamp ≤ tsKey a.1.timestamp

instance : DecidableRel tsDesc :=
  fun a b => inferInstanceAs (Decidable (tsKey b.1.timestamp ≤ tsKey a.1.timestamp))

instance : IsTotal (TxEntry × Product) tsDesc :=
  ⟨fun a b => le_total (tsKey b.1.timestamp) (tsKey a.1.timestamp)⟩

instance : IsTrans (TxEntry × Product) tsDesc :=
  ⟨fun _ _ _ h1 h2 => le_trans h2 h1⟩

/-- SQLite `LIKE '%q%'`: substring containment, case-insensitive on
ASCII. -/
def sqlLike (pat hay : String) : Bool :=
  decide ((pat.data.map Char.toLower) <:+: (hay.data.map Char.toLower))

/-- `filter_transactions` (app.py lines 1053-1108): optional substring
condition on product name/SKU, optional `DATE(t.timestamp) >= start` and
`DATE(t.timestamp) <= end` conditions, `ORDER BY t.timestamp DESC`.  A
pure read: no statement of the route writes the store. -/
def filter_transactions (st : Store) (q : Option String)
    (start_date end_date : Option ExDate) : List (TxEntry × Product) :=
  let base := joinProducts st
  let sq := pyStrip (q.getD "")
  let f1 := if sq.data.isEmpty then base
    else base.filter (fun ep => sqlLike sq ep.2.name || sqlLike sq ep.2.sku)
  let f2 := match start_date with
    | some s => f1.filter (fun ep => decide (dateKey s ≤ dateKey ep.1.timestamp.date))
    | none => f1
  let f3 := match end_date with
    | some e => f2.filter (fun ep => decide (dateKey ep.1.timestamp.date ≤ dateKey e))
    | none => f2
  List.insertionSort tsDesc f3

/-- Zero-padded two-digit field of `strftime`. -/
def pad2 (n : ℕ) : String :=
  if n < 10 then "0" ++ toString n else toString n

/-- `strftime('%d.%m.%Y')` (years in this system are four-digit). -/
def fmtDMY (d : ExDate) : String :=
  pad2 d.day ++ "." ++ pad2 d.month ++ "." ++ toString d.year

/-- One response row of `get_stock_issues_date_range` (app.py lines
587-593). -/
structure IssueView where
  date : String
  s_no : ℤ
  description : String
  unit : String
  quantity : ℤ
deriving DecidableEq, Repr

/-- Projection of one joined row to the response shape: the date
reformatted `DD.MM.YYYY`, the product id as serial number, and the
quantity displayed as an absolute value. -/
def issueView (ep : TxEntry × Product) : IssueView :=
  ⟨fmtDMY ep.1.timestamp.date, ep.1.product_id, ep.2.name, ep.2.unit, |ep.1.quantity_change|⟩

/-- `get_stock_issues_date_range` (app.py lines 547-601): sale-kind
entries joined with their product, `DATE(t.timestamp) BETWEEN start AND
end`, most recent first, projected to the response shape.  Both bounds
are required by the route (else it answers 400 before querying). -/
def get_stock_issues_date_range (st : Store) (start_date end_date : ExDate) :
    List IssueView :=
  (List.insertionSort tsDesc ((joinProducts st).filter (fun ep =>
    ep.1.type == "sale" && decide (dateKey start_date ≤ dateKey ep.1.timestamp.date) &&
      decide (dateKey ep.1.timestamp.date ≤ dateKey end_date)))).map issueView

/-- Python `str()` of a cell value, used for `DESCRIPTION` and `UNIT`
(app.py lines 813, 816).  It never raises; the rendering of a float is
approximated by its numerator (no claim inspects a numeric rendering). -/
def pyStr : Cell → String
  | Cell.na => "nan"
  | Cell.num q => toString q.num
  | Cell.str s => s

/-- The guarded integer read `int(row[c]) if pd.notna(row[c]) else 0`
(app.py lines 817-821): an absent cell is 0, a float truncates toward
zero (a float cell never raises here, matching finite Excel floats), and
a text cell goes through Python `int()`, which raises (`none`) unless the
text is an integer literal — the raising path of the strict phase. -/
def intOrZero : Cell → Option ℤ
  | Cell.na => some 0
  | Cell.num q => some (pyTrunc q)
  | Cell.str s => pyIntOfString s

/-- Outcome of `/api/import-stock` from the point where the three sheets
have been read successfully: success with the count of products created,
or the row-level failure response of app.py lines 842-844 carrying the
failing row index, SKU and name. -/
inductive ImportOutcome where
  | ok (count : ℕ)
  | rowError (index : ℕ) (sku name : String)
deriving DecidableEq, Repr

/-- True when step 5 of `import_stock` can process the row without
raising: all four guarded integer reads succeed. -/
def row_convertible (r : BRow) : Bool :=
  (intOrZero r.opening).isSome && (intOrZero r.receipt).isSome &&
    (intOrZero r.issue).isSome && (intOrZero r.balance).isSome

/-- Step 5 of `import_stock` (app.py lines 805-844): iterate the cleaned
rows in order, inserting one product each (id from the reset
AUTOINCREMENT counter), recording the `S.NO. → product id` mapping, and
appending one `initial` ledger entry when the truncated opening quantity
is nonzero.  The first row whose integer reads raise aborts the loop with
the row's index, SKU and name (the except-branch of lines 834-844). -/
def import_balance_rows (now : Timestamp) :
    List BRow → ℕ → Store → List (ℤ × ℤ) → ℕ →
      Except (ℕ × String × String) (Store × List (ℤ × ℤ) × ℕ)
  | [], _, st, mp, cnt => .ok (st, mp, cnt)
  | r :: rest, index, st, mp, cnt =>
    let name := pyStr r.description
    let s_no := r.s_no.getD 0
    let sku := "ITEM-" ++ toString s_no
    match intOrZero r.opening, intOrZero r.receipt, intOrZero r.issue,
          intOrZero r.balance with
    | some opening_stock, some receipt, some issue, some balance =>
      let product_id := st.next_product_id
      let p : Product :=
        ⟨product_id, sku, name, pyStr r.unit, opening_stock, receipt, issue, balance⟩
      let st1 : Store :=
        { st with products := st.products ++ [p], next_product_id := product_id + 1 }
      let st2 := if opening_stock == 0 then st1
        else insertTx st1 product_id "initial" opening_stock "Imported opening balance" now
      import_balance_rows now rest (index + 1) st2 (mp ++ [(s_no, product_id)]) (cnt + 1)
    | _, _, _, _ => .error (index, sku, name)

/-- A raw row of the ISSUE or RECEIPT sheet: the identifier and
description columns plus the cells under `df.columns[3:]`, positionally
aligned with the sheet's column labels. -/
structure MRow where
  s_no : Option ℤ
  description : Cell
  vals : List Cell
deriving DecidableEq, Repr

/-- An ISSUE or RECEIPT sheet: `date_cols` is `df.columns[3:]` — every
column label after `S.NO.`, `DESCRIPTION`, `UNIT`, INCLUDING the trailing
aggregate column when the sheet has one (the source iterates
`df.columns[3:]` with no positional exclusion). -/
structure MSheet where
  date_cols : List ExcelVal
  rows : List MRow
deriving DecidableEq, Repr

/-- The per-cell value guard of steps 6-7 (app.py lines 862-870 and
913-921): skip absent cells, skip `== 0` cells, apply `float()` (skip on
its `ValueError`), skip non-positive values. -/
def movementQty : Cell → Option ℚ
  | Cell.na => none
  | Cell.num q => if q.num ≤ 0 then none else some q
  | Cell.str s =>
    match pyFloatOfString s with
    | some q => if q.num ≤ 0 then none else some q
    | none => none

/-- The inner column loop of steps 6-7 (app.py lines 861-892 and
912-943): for each (column label, cell) pair IN FULL — the trailing
column is iterated like any other — insert one movement entry when the
cell value is positive and the label parses as a date; otherwise skip the
cell silently.  Issues insert `sale` rows with negated quantity, receipts
insert `purchase` rows; both store the parsed date as a date-only
timestamp. -/
def replay_cells (fallback : String → Option ExDate) (isIssue : Bool) (pid : ℤ) :
    List (ExcelVal × Cell) → Store → Store
  | [], st => st
  | (col, v) :: rest, st =>
    let st' :=
      match movementQty v, parse_excel_date fallback col with
      | some q, some d =>
        if isIssue then
          insertTx st pid "sale" (-(pyTrunc q)) ("Stock issue on " ++ fmtDMY d) ⟨d, none⟩
        else
          insertTx st pid "purchase" (pyTrunc q) ("Stock receipt on " ++ fmtDMY d) ⟨d, none⟩
      | _, _ => st
    replay_cells fallback isIssue pid rest st'

/-- Python dict lookup in `product_mapping`. -/
def lookup_mapping (mp : List (ℤ × ℤ)) (k : ℤ) : Option ℤ :=
  (mp.find? (fun kv => kv.1 == k)).map (fun kv => kv.2)

/-- The per-row guard of steps 6-7: skip rows with an absent identifier
or description, and rows whose identifier is not in the mapping built
during step 5. -/
def replay_row (fallback : String → Option ExDate) (isIssue : Bool)
    (mp : List (ℤ × ℤ)) (cols : List ExcelVal) (r : MRow) (st : Store) : Store :=
  match r.s_no with
  | none => st
  | some k =>
    if r.description == Cell.na then st
    else
      match lookup_mapping mp k with
      | none => st
      | some pid => replay_cells fallback isIssue pid (cols.zip r.vals) st

/-- One full sheet replay (step 6 for ISSUE, step 7 for RECEIPT). -/
def replay_sheet (fallback : String → Option ExDate) (isIssue : Bool)
    (mp : List (ℤ × ℤ)) (sheet : MSheet) (st : Store) : Store :=
  sheet.rows.foldl (fun st r => replay_row fallback isIssue mp sheet.date_cols r st) st

/-- The cleared-and-committed state after step 4 of `import_stock`
(app.py lines 793-798): both tables emptied and both `sqlite_sequence`
counters reset, `db.commit()` executed. -/
def emptyStore : Store :=
  ⟨[], [], 1, 1⟩

/-- `import_stock` (app.py lines 756-954) from the point where the three
sheets were read successfully (steps 1-2 fail before any mutation and are
outside the claims).  The returned store is the COMMITTED state after the
route finishes: step 4 commits the cleared state before step 5 begins, so
the rollback in the except-branch of step 5 restores the cleared state,
not `pre`; on success the movement replays of steps 6-7 are committed at
line 948. -/
def import_stock (fallback : String → Option ExDate) (now : Timestamp) (pre : Store)
    (df_balance : List BRow) (df_issue df_receipt : MSheet) : ImportOutcome × Store :=
  let valid_balance := clean_balance df_balance
  match import_balance_rows now valid_balance 0 emptyStore [] 0 with
  | .error (i, sku, name) => (.rowError i sku name, emptyStore)
  | .ok (st1, mp, cnt) =>
    let st2 := replay_sheet fallback true mp df_issue st1
    let st3 := replay_sheet fallback false mp df_receipt st2
    (.ok cnt, st3)

/-! ### Shared fixtures and basic unfolding lemmas -/

/-- Concrete instantiation of the external `dateutil` fallback used by
closed theorems: it fails on every label, which is all any claim needs of
it (the fallback is only consulted on labels such as "TOTAL" that carry
no date information, on which `dateutil` raises). -/
def fbNone : String → Option ExDate := fun _ => none

/-- A sample `CURRENT_TIMESTAMP` value: 2025-07-20 at 10:00:00. -/
def ts0 : Timestamp := ⟨⟨2025, 7, 20⟩, some 36000⟩

/-- Sample product. -/
def pW : Product := ⟨1, "ITEM-1", "Widget", "PCS", 5, 0, 0, 5⟩

/-- Sample store: one product with an `initial` entry of 5 (derived
stock 5). -/
def stW : Store := ⟨[pW], [⟨1, 1, "initial", 5, "Imported opening balance", ts0⟩], 2, 2⟩

/-- Sample store: one product with an empty ledger (derived stock 0). -/
def stZ : Store := ⟨[⟨1, "ITEM-1", "Widget", "PCS", 0, 0, 0, 0⟩], [], 2, 1⟩

/-- An empty movement sheet. -/
def msEmpty : MSheet := ⟨[], []⟩

/-- Unfolding of `parse_excel_date` on a string input. -/
theorem parse_excel_date_str (fallback : String → Option ExDate) (s : String) :
    parse_excel_date fallback (ExcelVal.str s) =
      (if (pyStrip s).data.isEmpty then none
       else
         match first_format date_formats (pyStrip s).data with
         | some d => some d
         | none => fallback (pyStrip s)) := rfl

/-- Derived stock after appending one entry: the entry contributes its
signed quantity when it references the queried product. -/
theorem current_stock_append (st : Store) (e : TxEntry) (ntid : ℤ) (pid : ℤ) :
    current_stock { st with ledger := st.ledger ++ [e], next_tx_id := ntid } pid =
      current_stock st pid + (if e.product_id = pid then e.quantity_change else 0) := by
  simp only [current_stock, List.filter_append, List.map_append, List.sum_append]
  by_cases h : e.product_id = pid
  · simp [h]
  · simp [h, beq_eq_false_iff_ne.mpr h]

/-! ### Claim C5 — the date normalizer contract -/

/-- C5: for every input value the date normalizer returns a calendar date
or an explicit absence and never raises (it is a total function into
`Option`); native datetimes truncate to their date; strings are stripped,
the empty string is absent; the four day-first formats are tried in the
listed order with the dotted two-digit-year format first, returning on
the first match without consulting the lenient fallback; only when all
four formats fail is the day-first lenient fallback consulted; `"2.7.25"`
parses to 2025-07-02, `"18/7/25"` to 2025-07-18, and `"TOTAL"` (on which
the lenient parser fails) is absent. -/
theorem parse_excel_date_contract (fallback : String → Option ExDate) :
    (parse_excel_date fallback ExcelVal.na = none) ∧
    (∀ d secs, parse_excel_date fallback (ExcelVal.dt d secs) = some d) ∧
    (parse_excel_date fallback ExcelVal.other = none) ∧
    (∀ s, (pyStrip s).data = [] → parse_excel_date fallback (ExcelVal.str s) = none) ∧
    (∀ s d, strptime_dmy '.' false (pyStrip s).data = some d →
      parse_excel_date fallback (ExcelVal.str s) = some d) ∧
    (∀ s, (pyStrip s).data ≠ [] → first_format date_formats (pyStrip s).data = none →
      parse_excel_date fallback (ExcelVal.str s) = fallback (pyStrip s)) ∧
    (parse_excel_date fallback (ExcelVal.str "2.7.25") = some ⟨2025, 7, 2⟩) ∧
    (parse_excel_date fallback (ExcelVal.str "18/7/25") = some ⟨2025, 7, 18⟩) ∧
    (fallback "TOTAL" = none → parse_excel_date fallback (ExcelVal.str "TOTAL") = none) := by
  refine ⟨rfl, fun d secs => rfl, rfl, ?_, ?_, ?_, ?_, ?_, ?_⟩
  · intro s h
    rw [parse_excel_date_str, h]
    rfl
  · intro s d h
    have hne : (pyStrip s).data.isEmpty = false := by
      cases hc : (pyStrip s).data with
      | nil => rw [hc] at h; simp [strptime_dmy, chSplit] at h
      | cons a l => rfl
    rw [parse_excel_date_str, hne]
    simp only [date_formats, first_format, h]
    simp
  · intro s hne hfmt
    have hne' : (pyStrip s).data.isEmpty = false := by
      cases hc : (pyStrip s).data with
      | nil => exact absurd hc hne
      | cons a l => rfl
    rw [parse_excel_date_str, hne', hfmt]
    simp
  · have h1 : first_format date_formats (pyStrip "2.7.25").data = some ⟨2025, 7, 2⟩ := by decide
    have h0 : (pyStrip "2.7.25").data.isEmpty = false := by decide
    rw [parse_excel_date_str, h1, h0]
    simp
  · have h1 : first_format date_formats (pyStrip "18/7/25").data = some ⟨2025, 7, 18⟩ := by decide
    have h0 : (pyStrip "18/7/25").data.isEmpty = false := by decide
    rw [parse_excel_date_str, h1, h0]
    simp
  · intro hfb
    have h1 : first_format date_formats (pyStrip "TOTAL").data = none := by decide
    have h2 : pyStrip "TOTAL" = "TOTAL" := by decide
    have h0 : ("TOTAL" : String).data.isEmpty = false := by decide
    rw [parse_excel_date_str, h1, h2, hfb, h0]
    simp

/-- Witness for C5 at the concrete fallback that fails on every label
(matching dateutil on "TOTAL"): the round-trip examples hold. -/
theorem parse_excel_date_contract_witness :
    parse_excel_date fbNone (ExcelVal.str "TOTAL") = none ∧
    parse_excel_date fbNone (ExcelVal.str "2.7.25") = some ⟨2025, 7, 2⟩ ∧
    parse_excel_date fbNone (ExcelVal.str "18/7/25") = some ⟨2025, 7, 18⟩ := by
  have h := parse_excel_date_contract fbNone
  exact ⟨h.2.2.2.2.2.2.2.2 rfl, h.2.2.2.2.2.2.1, h.2.2.2.2.2.2.2.1⟩

/-! ### Claim C6 — record_sale: insufficient stock and exact-stock sale -/

/-- C6 (amended): for every `record_sale` call with a POSITIVE quantity on
an existing product (nonzero id): when the quantity strictly exceeds the
derived stock the call answers the insufficient-stock error and the store
is unchanged (nothing appended); when the quantity equals the derived
stock the call succeeds, appends exactly one `sale` entry carrying the
negated quantity, and the derived stock becomes 0.  (The amendment
restricts the claim to positive quantities: a requested quantity of 0 is
rejected by the input validation of app.py lines 316-322 before the stock
check, even when it equals a derived stock of 0 — see the
counterexample.) -/
theorem record_sale_exact_and_insufficient (now : Timestamp) (st : Store)
    (product_id quantity : ℤ) (customer notes : String) (tdate : Option String)
    (hpid : product_id ≠ 0) (hq : 0 < quantity)
    (hex : (st.products.find? (fun p => p.id == product_id)).isSome) :
    (current_stock st product_id < quantity →
      record_sale now st product_id quantity customer notes tdate =
        (.errInsufficient (current_stock st product_id) quantity, st)) ∧
    (quantity = current_stock st product_id →
      ∃ e : TxEntry,
        record_sale now st product_id quantity customer notes tdate =
          (.created e,
            { st with ledger := st.ledger ++ [e], next_tx_id := st.next_tx_id + 1 }) ∧
        e.type = "sale" ∧ e.product_id = product_id ∧ e.quantity_change = -quantity ∧
        current_stock { st with ledger := st.ledger ++ [e], next_tx_id := st.next_tx_id + 1 } product_id = 0) := by
  have hb1 : (product_id == 0 || quantity == 0) = false := by
    simp [hpid, hq.ne']
  have hb2 : ¬ quantity ≤ 0 := not_le.mpr hq
  obtain ⟨p, hp⟩ := Option.isSome_iff_exists.mp hex
  constructor
  · intro hlt
    simp only [record_sale, hb1, hp]
    simp [hb2, hlt]
  · intro heq
    have hnlt : ¬ current_stock st product_id < quantity := by omega
    refine ⟨⟨st.next_tx_id, product_id, "sale", -quantity,
      saleNote quantity customer notes tdate, now⟩, ?_, rfl, rfl, rfl, ?_⟩
    · simp only [record_sale, hb1, hp]
      simp [hb2, hnlt]
    · rw [current_stock_append]
      simp
      omega

/-- Witness for C6: on the sample store with derived stock 5, selling
exactly 5 succeeds, appends one `sale` entry of -5, and leaves derived
stock 0. -/
theorem record_sale_exact_and_insufficient_witness :
    ∃ e : TxEntry,
      record_sale ts0 stW 1 5 "" "" none =
        (.created e, { stW with ledger := stW.ledger ++ [e], next_tx_id := stW.next_tx_id + 1 }) ∧
      e.type = "sale" ∧ e.product_id = 1 ∧ e.quantity_change = -5 ∧
      current_stock { stW with ledger := stW.ledger ++ [e], next_tx_id := stW.next_tx_id + 1 } 1 = 0 :=
  (record_sale_exact_and_insufficient ts0 stW 1 5 "" "" none (by decide) (by decide)
    (by decide)).2 (by decide)

/-- Counterexample for C6 as stated: on a product with derived stock 0, a
`recordSale` whose requested quantity 0 EQUALS the derived stock does not
succeed — the falsy-input validation rejects it before the stock check
and nothing is appended — whereas the claim promises success with one
appended entry for every quantity-equals-stock call. -/
theorem record_sale_zero_quantity_cex :
    current_stock stZ 1 = 0 ∧
    record_sale ts0 stZ 1 0 "" "" none = (.errRequired, stZ) ∧
    (record_sale ts0 stZ 1 0 "" "" none).2.ledger.length = 0 := by decide

/-! ### Claim C2 — sale-kind entries and the derived-stock guard -/

/-- Case analysis of `record_sale` (helper): either the call rejects and
returns the store unchanged, or the quantity was positive, within the
derived stock, and exactly the one sale entry was appended. -/
theorem record_sale_cases (now : Timestamp) (st : Store) (product_id quantity : ℤ)
    (customer notes : String) (tdate : Option String) :
    (record_sale now st product_id quantity customer notes tdate).2 = st ∨
    (0 < quantity ∧ quantity ≤ current_stock st product_id ∧
      record_sale now st product_id quantity customer notes tdate =
        (.created ⟨st.next_tx_id, product_id, "sale", -quantity,
            saleNote quantity customer notes tdate, now⟩,
          { st with
            ledger := st.ledger ++ [⟨st.next_tx_id, product_id, "sale", -quantity, saleNote quantity customer notes tdate, now⟩],
            next_tx_id := st.next_tx_id + 1 })) := by
  cases hb1 : (product_id == 0 || quantity == 0) with
  | true => left; simp [record_sale, hb1]
  | false =>
    by_cases hb2 : quantity ≤ 0
    · left; simp [record_sale, hb1, hb2]
    · cases hf : st.products.find? (fun p => p.id == product_id) with
      | none => left; simp [record_sale, hb1, hb2, hf]
      | some p =>
        by_cases h3 : current_stock st product_id < quantity
        · left; simp [record_sale, hb1, hb2, hf, h3]
        · right
          exact ⟨not_le.mp hb2, not_lt.mp h3, by simp [record_sale, hb1, hb2, hf, h3]⟩

/-- C2 (amended): `record_sale` never drives a derived stock negative —
it rejects (leaving the store unchanged) whenever the requested quantity
exceeds the product's derived stock, and otherwise appends exactly one
sale entry whose quantity fits inside the available stock, so every
nonnegative derived stock stays nonnegative.  The amendment drops the
words "every operation that appends a sale-kind ledger entry": the
`add_transaction` route also appends sale-kind entries and performs NO
stock check at all, so a sale-kind entry CAN drive derived stock negative
(see the counterexample). -/
theorem record_sale_preserves_nonneg_stock (now : Timestamp) (st : Store)
    (product_id quantity : ℤ) (customer notes : String) (tdate : Option String) :
    ((record_sale now st product_id quantity customer notes tdate).2 = st ∨
      (0 < quantity ∧ quantity ≤ current_stock st product_id ∧
        ∃ e : TxEntry, e.type = "sale" ∧ e.product_id = product_id ∧
          e.quantity_change = -quantity ∧
          (record_sale now st product_id quantity customer notes tdate).1 = .created e ∧
          (record_sale now st product_id quantity customer notes tdate).2 =
            { st with ledger := st.ledger ++ [e], next_tx_id := st.next_tx_id + 1 })) ∧
    (∀ pid : ℤ, 0 ≤ current_stock st pid →
      0 ≤ current_stock (record_sale now st product_id quantity customer notes tdate).2 pid) := by
  rcases record_sale_cases now st product_id quantity customer notes tdate with h | ⟨h1, h2, h3⟩
  · exact ⟨Or.inl h, fun pid hn => by rw [h]; exact hn⟩
  · constructor
    · exact Or.inr ⟨h1, h2, ⟨st.next_tx_id, product_id, "sale", -quantity,
        saleNote quantity customer notes tdate, now⟩, rfl, rfl, rfl,
        by rw [h3], by rw [h3]⟩
    · intro pid hn
      rw [h3]
      rw [current_stock_append]
      by_cases hpp : product_id = pid
      · subst hpp
        simp only [if_pos rfl]
        omega
      · simp only [hpp, if_false]
        omega

/-- Witness for C2: a successful sale of 3 on the sample store with
derived stock 5 leaves the derived stock nonnegative. -/
theorem record_sale_preserves_nonneg_stock_witness :
    0 ≤ current_stock (record_sale ts0 stW 1 3 "" "" none).2 1 :=
  (record_sale_preserves_nonneg_stock ts0 stW 1 3 "" "" none).2 1 (by decide)

/-- Counterexample for C2 as stated: `add_transaction` appends a
sale-kind ledger entry for a product whose derived stock is 0 without any
stock check, driving the derived stock to -5 — the claim promises that
every operation appending a sale-kind entry is rejected in this
situation. -/
theorem add_transaction_negative_stock_cex :
    current_stock stZ 1 = 0 ∧
    ((add_transaction ts0 stZ 1 "sale" 5).2.ledger.map
      (fun e => (e.type, e.quantity_change))) = [("sale", -5)] ∧
    current_stock (add_transaction ts0 stZ 1 "sale" 5).2 1 = -5 := by decide

/-! ### Claim C10 — an explicit date argument only reaches the note -/

/-- C10: for every successful `record_purchase` or `record_sale` call that
supplies a (truthy) explicit date argument, the appended entry's stored
timestamp is the creation-time `CURRENT_TIMESTAMP` default `now` — the
insert statements name no timestamp column — and the supplied date string
appears only as the `" (Date: ...)"` suffix of the free-text note;
moreover the stored timestamps are the same whatever date argument (or
none) is supplied, so the date-range projections (which compare
`DATE(timestamp)`) select these entries by creation time. -/
theorem record_with_date_keeps_creation_timestamp (now : Timestamp) (st : Store)
    (product_id quantity : ℤ) (partner notes : String) (d : String)
    (hpid : product_id ≠ 0) (hq : 0 < quantity)
    (hex : (st.products.find? (fun p => p.id == product_id)).isSome)
    (hd : d.data ≠ []) (hstock : quantity ≤ current_stock st product_id) :
    (∃ e : TxEntry,
      record_purchase now st product_id quantity partner notes (some d) =
        (.created e, { st with ledger := st.ledger ++ [e], next_tx_id := st.next_tx_id + 1 }) ∧
      e.timestamp = now ∧
      e.notes = purchaseNote quantity partner notes none ++ " (Date: " ++ d ++ ")" ∧
      (∀ td : Option String,
        (record_purchase now st product_id quantity partner notes td).2.ledger.map
            (fun x => x.timestamp) =
          st.ledger.map (fun x => x.timestamp) ++ [now])) ∧
    (∃ e : TxEntry,
      record_sale now st product_id quantity partner notes (some d) =
        (.created e, { st with ledger := st.ledger ++ [e], next_tx_id := st.next_tx_id + 1 }) ∧
      e.timestamp = now ∧
      e.notes = saleNote quantity partner notes none ++ " (Date: " ++ d ++ ")" ∧
      (∀ td : Option String,
        (record_sale now st product_id quantity partner notes td).2.ledger.map
            (fun x => x.timestamp) =
          st.ledger.map (fun x => x.timestamp) ++ [now])) := by
  have hb1 : (product_id == 0 || quantity == 0) = false := by
    simp [hpid, hq.ne']
  have hb2 : ¬ quantity ≤ 0 := not_le.mpr hq
  have hnlt : ¬ current_stock st product_id < quantity := not_lt.mpr hstock
  obtain ⟨p, hp⟩ := Option.isSome_iff_exists.mp hex
  have hd' : d.data.isEmpty = false := by
    cases hc : d.data with
    | nil => exact absurd hc hd
    | cons a l => rfl
  constructor
  · refine ⟨⟨st.next_tx_id, product_id, "purchase", quantity,
      purchaseNote quantity partner notes (some d), now⟩, ?_, rfl, ?_, ?_⟩
    · simp [record_purchase, hb1, hb2, hp]
    · simp [purchaseNote, hd']
    · intro td
      simp [record_purchase, hb1, hb2, hp]
  · refine ⟨⟨st.next_tx_id, product_id, "sale", -quantity,
      saleNote quantity partner notes (some d), now⟩, ?_, rfl, ?_, ?_⟩
    · simp [record_sale, hb1, hb2, hp, hnlt]
    · simp [saleNote, hd']
    · intro td
      simp [record_sale, hb1, hb2, hp, hnlt]

/-- Witness for C10: on the sample store, a purchase of 2 with the
explicit date "1.7.25" stores the creation-time timestamp `ts0`, not July
1st. -/
theorem record_with_date_keeps_creation_timestamp_witness :
    (record_purchase ts0 stW 1 2 "" "" (some "1.7.25")).2.ledger.map (fun x => x.timestamp) =
      stW.ledger.map (fun x => x.timestamp) ++ [ts0] := by
  obtain ⟨⟨e, he, ht, hn, hall⟩, hsale⟩ :=
    record_with_date_keeps_creation_timestamp ts0 stW 1 2 "" "" "1.7.25"
      (by decide) (by decide) (by decide) (by decide) (by decide)
  exact hall (some "1.7.25")

/-! ### Claim C8 — date-range projections -/

/-- Membership in the transactions-join-products base query. -/
theorem mem_joinProducts (st : Store) (ep : TxEntry × Product) :
    ep ∈ joinProducts st ↔
      ep.1 ∈ st.ledger ∧ ep.2 ∈ st.products ∧ ep.2.id = ep.1.product_id := by
  rcases ep with ⟨e, p⟩
  simp only [joinProducts, List.mem_flatMap, List.mem_map, List.mem_filter]
  constructor
  · rintro ⟨e', he', p', ⟨hp', hid⟩, heq⟩
    injection heq with h1 h2
    subst h1; subst h2
    exact ⟨he', hp', by simpa using hid⟩
  · rintro ⟨he, hp, hid⟩
    exact ⟨e, he, p, ⟨hp, by simpa using hid⟩, rfl⟩

/-- `filter_transactions` with no search string and both date bounds. -/
theorem filter_transactions_none_some (st : Store) (s e : ExDate) :
    filter_transactions st none (some s) (some e) =
      List.insertionSort tsDesc
        (((joinProducts st).filter
            (fun ep => decide (dateKey s ≤ dateKey ep.1.timestamp.date))).filter
          (fun ep => decide (dateKey ep.1.timestamp.date ≤ dateKey e))) := by
  have h0 : (pyStrip "").data = [] := by decide
  simp [filter_transactions, h0]

/-- C8 (amended): for every store state and every inclusive date range,
`filter_transactions` returns exactly the ledger entries WHOSE PRODUCT
STILL EXISTS (the SQL join omits entries referencing an absent product —
see the counterexample) and whose timestamp's calendar-date component
lies within the bound, endpoints included, ordered most-recent-first; the
issues-by-range query additionally restricts to sale-kind entries and
projects each row to its display shape.  Both are pure reads: they are
functions of the store and execute no write. -/
theorem filter_transactions_range_characterization (st : Store) (s e : ExDate) :
    (∀ ep : TxEntry × Product,
      ep ∈ filter_transactions st none (some s) (some e) ↔
        (ep.1 ∈ st.ledger ∧ ep.2 ∈ st.products ∧ ep.2.id = ep.1.product_id ∧
          dateKey s ≤ dateKey ep.1.timestamp.date ∧
          dateKey ep.1.timestamp.date ≤ dateKey e)) ∧
    (filter_transactions st none (some s) (some e)).Pairwise tsDesc ∧
    (∀ v : IssueView,
      v ∈ get_stock_issues_date_range st s e ↔
        ∃ ep : TxEntry × Product,
          ep.1 ∈ st.ledger ∧ ep.2 ∈ st.products ∧ ep.2.id = ep.1.product_id ∧
          ep.1.type = "sale" ∧ dateKey s ≤ dateKey ep.1.timestamp.date ∧
          dateKey ep.1.timestamp.date ≤ dateKey e ∧ v = issueView ep) := by
  refine ⟨?_, ?_, ?_⟩
  · intro ep
    rw [filter_transactions_none_some]
    simp only [List.mem_insertionSort, List.mem_filter, mem_joinProducts,
      decide_eq_true_eq]
    constructor
    · rintro ⟨⟨⟨h1, h2, h3⟩, h4⟩, h5⟩
      exact ⟨h1, h2, h3, h4, h5⟩
    · rintro ⟨h1, h2, h3, h4, h5⟩
      exact ⟨⟨⟨h1, h2, h3⟩, h4⟩, h5⟩
  · rw [filter_transactions_none_some]
    exact List.sorted_insertionSort tsDesc _
  · intro v
    simp only [get_stock_issues_date_range, List.mem_map, List.mem_insertionSort,
      List.mem_filter, mem_joinProducts, Bool.and_eq_true, beq_iff_eq,
      decide_eq_true_eq]
    constructor
    · rintro ⟨ep, ⟨⟨h1, h2, h3⟩, ⟨h4, h5⟩, h6⟩, rfl⟩
      exact ⟨ep, h1, h2, h3, h4, h5, h6, rfl⟩
    · rintro ⟨ep, h1, h2, h3, h4, h5, h6, rfl⟩
      exact ⟨ep, ⟨⟨h1, h2, h3⟩, ⟨h4, h5⟩, h6⟩, rfl⟩

set_option maxRecDepth 4000 in
/-- Witness for C8: the sample store's initial entry (timestamp
2025-07-20) is selected by the year-2025 range. -/
theorem filter_transactions_range_characterization_witness :
    (⟨⟨1, 1, "initial", 5, "Imported opening balance", ts0⟩, pW⟩ : TxEntry × Product) ∈
      filter_transactions stW none (some ⟨2025, 1, 1⟩) (some ⟨2025, 12, 31⟩) :=
  ((filter_transactions_range_characterization stW ⟨2025, 1, 1⟩ ⟨2025, 12, 31⟩).1
    ⟨⟨1, 1, "initial", 5, "Imported opening balance", ts0⟩, pW⟩).mpr (by decide)

/-- An entry referencing product id 999 while the catalog is empty; such
a state is reachable because `add_transaction` checks neither product
existence nor the (unenforced) foreign key. -/
def eOrph : TxEntry := ⟨1, 999, "purchase", 5, "Stock In (Purchase): 5 units", ⟨⟨2025, 7, 2⟩, some 0⟩⟩

/-- The store holding only the orphan entry. -/
def stOrph : Store := ⟨[], [eOrph], 1, 2⟩

/-- Counterexample for C8 as stated: the orphan entry's date lies inside
the queried range, yet `filter_transactions` returns nothing — the claim
promises exactly the in-range entries, with no product-existence
proviso. -/
theorem filter_transactions_orphan_entry_cex :
    (add_transaction ⟨⟨2025, 7, 2⟩, some 0⟩ ⟨[], [], 1, 1⟩ 999 "purchase" 5).2 = stOrph ∧
    eOrph ∈ stOrph.ledger ∧
    dateKey ⟨2025, 7, 2⟩ ≤ dateKey eOrph.timestamp.date ∧
    dateKey eOrph.timestamp.date ≤ dateKey ⟨2025, 7, 2⟩ ∧
    filter_transactions stOrph none (some ⟨2025, 7, 2⟩) (some ⟨2025, 7, 2⟩) = [] := by decide

/-! ### Claims C4 and C9 — the Row Validator / Cleaner -/

/-- The filtered, coerced rows of the cleaning step (the `valid_balance_df`
before the groupby). -/
def validRows (rows : List BRow) : List BRow :=
  (rows.map coerceOpening).filter rowKept

/-- The sorted distinct identifiers the groupby produces. -/
def sortedKeys (rows : List BRow) : List ℤ :=
  List.insertionSort (· ≤ ·) ((validRows rows).filterMap (fun r => r.s_no)).dedup

/-- The kept rows sharing identifier `k`, in original order. -/
def keyGroup (rows : List BRow) (k : ℤ) : List BRow :=
  (validRows rows).filter (fun r => r.s_no == some k)

/-- `clean_balance` unfolded through the named pieces. -/
theorem clean_balance_eq (rows : List BRow) :
    clean_balance rows =
      (sortedKeys rows).map (fun k => groupFirst k (keyGroup rows k)) := rfl

/-- A kept description is not the null cell. -/
theorem descriptionKept_ne_na {c : Cell} (h : descriptionKept c = true) :
    c ≠ Cell.na := by
  intro hc
  subst hc
  simp [descriptionKept] at h

/-- `to_numeric` yields null or a number, never text. -/
theorem to_numeric_na_or_num (c : Cell) :
    to_numeric c = Cell.na ∨ ∃ q, to_numeric c = Cell.num q := by
  cases c with
  | na => exact Or.inl rfl
  | num q => exact Or.inr ⟨q, rfl⟩
  | str s =>
    cases h : pyFloatOfString s with
    | none => left; simp [to_numeric, h]
    | some q => right; exact ⟨q, by simp [to_numeric, h]⟩

/-- Every row surviving the filter has a kept description and a numeric
(coerced) opening. -/
theorem mem_validRows {rows : List BRow} {r : BRow} (h : r ∈ validRows rows) :
    descriptionKept r.description = true ∧ ∃ q, r.opening = Cell.num q := by
  rcases List.mem_filter.mp h with ⟨hmem, hkept⟩
  rcases List.mem_map.mp hmem with ⟨r0, _, rfl⟩
  rw [rowKept] at hkept
  have h1 : descriptionKept (coerceOpening r0).description = true :=
    (Bool.and_eq_true _ _ |>.mp hkept).1
  have h2 : (!((coerceOpening r0).opening == Cell.na)) = true :=
    (Bool.and_eq_true _ _ |>.mp hkept).2
  refine ⟨h1, ?_⟩
  rcases to_numeric_na_or_num r0.opening with hna | ⟨q, hq⟩
  · exfalso
    have : (coerceOpening r0).opening = Cell.na := hna
    rw [this] at h2
    simp at h2
  · exact ⟨q, hq⟩

/-- `first_nonnull` of a one-element list is that element. -/
theorem first_nonnull_singleton (c : Cell) : first_nonnull [c] = c := by
  by_cases h : c = Cell.na
  · subst h; rfl
  · have hb : (c == Cell.na) = false := beq_eq_false_iff_ne.mpr h
    simp [first_nonnull, List.find?, hb]

/-- If every element of a nonempty column is non-null and satisfies `P`,
then so does the column's groupby-first value. -/
theorem first_nonnull_prop {P : Cell → Prop} :
    ∀ l : List Cell, l ≠ [] → (∀ c ∈ l, c ≠ Cell.na) → (∀ c ∈ l, P c) →
      P (first_nonnull l)
  | [], h, _, _ => absurd rfl h
  | c :: l, _, hna, hP => by
    have hb : (c == Cell.na) = false := beq_eq_false_iff_ne.mpr (hna c (by simp))
    simpa [first_nonnull, List.find?, hb] using hP c (by simp)

/-- The identifier column of the aggregated output is exactly the key
list. -/
theorem filterMap_map_groupFirst (g : ℤ → List BRow) :
    ∀ keys : List ℤ,
      (keys.map (fun k => groupFirst k (g k))).filterMap (fun r => r.s_no) = keys
  | [] => rfl
  | k :: ks => by
    rw [List.map_cons, List.filterMap_cons]
    have hs : (groupFirst k (g k)).s_no = some k := rfl
    rw [hs, filterMap_map_groupFirst g ks]

/-- Filtering the aggregated output for an absent key yields nothing. -/
theorem filter_map_groupFirst_nil (g : ℤ → List BRow) (k : ℤ) :
    ∀ keys : List ℤ, k ∉ keys →
      (keys.map (fun j => groupFirst j (g j))).filter (fun r => r.s_no == some k) = []
  | [], _ => rfl
  | j :: js, hk => by
    have hjk : j ≠ k := fun h => hk (h ▸ List.mem_cons_self j js)
    have hb : ((groupFirst j (g j)).s_no == some k) = false := by
      simp [groupFirst]
      exact hjk
    rw [List.map_cons, List.filter_cons, hb]
    exact filter_map_groupFirst_nil g k js (fun h => hk (List.mem_cons_of_mem _ h))

/-- Filtering the aggregated output for a present key yields exactly its
aggregated row (keys are distinct). -/
theorem filter_map_groupFirst_mem (g : ℤ → List BRow) (k : ℤ) :
    ∀ keys : List ℤ, keys.Nodup → k ∈ keys →
      (keys.map (fun j => groupFirst j (g j))).filter (fun r => r.s_no == some k) =
        [groupFirst k (g k)]
  | [], _, hk => absurd hk (List.not_mem_nil k)
  | j :: js, hnd, hk => by
    rcases List.mem_cons.mp hk with rfl | hmem
    · have hb : ((groupFirst k (g k)).s_no == some k) = true := by simp [groupFirst]
      rw [List.map_cons, List.filter_cons, hb]
      simp [filter_map_groupFirst_nil g k js (List.nodup_cons.mp hnd).1]
    · have hjk : j ≠ k := fun h => (List.nodup_cons.mp hnd).1 (h ▸ hmem)
      have hb : ((groupFirst j (g j)).s_no == some k) = false := by
        simp [groupFirst]
        exact hjk
      rw [List.map_cons, List.filter_cons, hb]
      simpa using filter_map_groupFirst_mem g k js (List.nodup_cons.mp hnd).2 hmem

/-- Aggregating a one-row group reproduces the row. -/
theorem groupFirst_self (k : ℤ) (r : BRow) (h : r.s_no = some k) :
    groupFirst k [r] = r := by
  cases r with
  | mk sno d u o rc iss b =>
    cases h
    simp [groupFirst, first_nonnull_singleton]

/-- The aggregated key list is strictly sorted (sorted and duplicate
free). -/
theorem sortedKeys_sorted_lt (rows : List BRow) :
    (sortedKeys rows).Sorted (· < ·) := by
  have hs : (sortedKeys rows).Sorted (· ≤ ·) := List.sorted_insertionSort _ _
  have hn : (sortedKeys rows).Nodup :=
    ((List.perm_insertionSort _ _).nodup_iff).mpr (List.nodup_dedup _)
  exact hs.lt_of_le hn

/-- Every aggregated row has a kept description and a numeric opening
(helper shared by the C4 and C9 theorems). -/
theorem clean_balance_mem_kept (rows : List BRow) :
    ∀ r ∈ clean_balance rows,
      descriptionKept r.description = true ∧ ∃ q, r.opening = Cell.num q := by
  intro r hr
  rw [clean_balance_eq] at hr
  rcases List.mem_map.mp hr with ⟨k, hk, rfl⟩
  have hk' : k ∈ (validRows rows).filterMap (fun r => r.s_no) :=
    List.mem_dedup.mp ((List.mem_insertionSort _).mp hk)
  have hne : keyGroup rows k ≠ [] := by
    rcases List.mem_filterMap.mp hk' with ⟨r0, hr0, hs0⟩
    exact List.ne_nil_of_mem (List.mem_filter.mpr ⟨hr0, by simp [hs0]⟩)
  have hmemv : ∀ r' ∈ keyGroup rows k, r' ∈ validRows rows :=
    fun r' h => (List.mem_filter.mp h).1
  constructor
  · show descriptionKept (first_nonnull ((keyGroup rows k).map (fun r => r.description))) = true
    apply first_nonnull_prop (P := fun c => descriptionKept c = true)
    · intro hmapnil
      exact hne (List.map_eq_nil_iff.mp hmapnil)
    · intro c hc
      rcases List.mem_map.mp hc with ⟨r', hr', rfl⟩
      exact descriptionKept_ne_na (mem_validRows (hmemv r' hr')).1
    · intro c hc
      rcases List.mem_map.mp hc with ⟨r', hr', rfl⟩
      exact (mem_validRows (hmemv r' hr')).1
  · show ∃ q, first_nonnull ((keyGroup rows k).map (fun r => r.opening)) = Cell.num q
    apply first_nonnull_prop (P := fun c => ∃ q, c = Cell.num q)
    · intro hmapnil
      exact hne (List.map_eq_nil_iff.mp hmapnil)
    · intro c hc
      rcases List.mem_map.mp hc with ⟨r', hr', rfl⟩
      rcases (mem_validRows (hmemv r' hr')).2 with ⟨q, hq⟩
      rw [hq]
      intro hfalse
      exact Cell.noConfusion hfalse
    · intro c hc
      rcases List.mem_map.mp hc with ⟨r', hr', rfl⟩
      exact (mem_validRows (hmemv r' hr')).2

/-- Coercion is the identity on rows whose opening is already numeric. -/
theorem coerceOpening_id {r : BRow} (h : ∃ q, r.opening = Cell.num q) :
    coerceOpening r = r := by
  rcases h with ⟨q, hq⟩
  cases r with
  | mk sno d u o rc iss b =>
    cases hq
    simp [coerceOpening, to_numeric]

/-- A row with a kept description and numeric opening passes the filter. -/
theorem rowKept_of_kept {r : BRow} (h1 : descriptionKept r.description = true)
    (h2 : ∃ q, r.opening = Cell.num q) : rowKept r = true := by
  rcases h2 with ⟨q, hq⟩
  simp [rowKept, h1, hq]

/-- C4 (amended): cleaning coerces the opening quantity (non-numeric text
becoming absent), drops every row whose description is absent or the
text/number 0 and every row whose coerced opening is absent, drops rows
with an absent identifier, and groups the survivors by identifier — BUT,
contrary to the claim's "stable, first-wins" reading, the output is
sorted ASCENDING BY IDENTIFIER (pandas `groupby` sorts its keys), not in
original row order, and each surviving row carries, COLUMN-WISE, the
first non-absent value among its identifier's rows (pandas
`GroupBy.first` skips nulls per column), not necessarily the first row's
values: (i) the output identifiers are strictly ascending and
duplicate-free; (ii) every output row has a kept description and a
numeric opening; (iii) the output identifiers are exactly the
identifiers of the rows surviving the filter; (iv) every output row is
the column-wise first-non-null aggregate of its identifier's surviving
rows taken in original order. -/
theorem clean_balance_characterization (rows : List BRow) :
    ((clean_balance rows).filterMap (fun r => r.s_no)).Sorted (· < ·) ∧
    (∀ r ∈ clean_balance rows,
      descriptionKept r.description = true ∧ ∃ q, r.opening = Cell.num q) ∧
    (∀ k : ℤ,
      k ∈ (clean_balance rows).filterMap (fun r => r.s_no) ↔
        k ∈ (validRows rows).filterMap (fun r => r.s_no)) ∧
    (∀ r ∈ clean_balance rows, ∃ k, r.s_no = some k ∧
      r = groupFirst k ((validRows rows).filter (fun r' => r'.s_no == some k))) := by
  refine ⟨?_, clean_balance_mem_kept rows, ?_, ?_⟩
  · rw [clean_balance_eq, filterMap_map_groupFirst]
    exact sortedKeys_sorted_lt rows
  · intro k
    rw [clean_balance_eq, filterMap_map_groupFirst]
    constructor
    · intro h
      exact List.mem_dedup.mp ((List.mem_insertionSort _).mp h)
    · intro h
      exact (List.mem_insertionSort _).mpr (List.mem_dedup.mpr h)
  · intro r hr
    rw [clean_balance_eq] at hr
    rcases List.mem_map.mp hr with ⟨k, _, rfl⟩
    exact ⟨k, rfl, rfl⟩

/-- Sample raw Balance row: identifier 7, description "A", absent unit. -/
def bA : BRow := ⟨some 7, Cell.str "A", Cell.na, Cell.num (mkRat 1 1), Cell.na, Cell.na, Cell.na⟩

/-- Sample raw Balance row: identifier 3. -/
def bB : BRow := ⟨some 3, Cell.str "B", Cell.str "kg", Cell.num (mkRat 2 1), Cell.na, Cell.na, Cell.na⟩

/-- Sample raw Balance row: duplicate identifier 7, unit "pc". -/
def bC : BRow := ⟨some 7, Cell.str "C", Cell.str "pc", Cell.num (mkRat 5 1), Cell.na, Cell.na, Cell.na⟩

/-- Witness for C4: identifier 3 survives cleaning of the sample rows. -/
theorem clean_balance_characterization_witness :
    3 ∈ (clean_balance [bA, bB, bC]).filterMap (fun r => r.s_no) :=
  ((clean_balance_characterization [bA, bB, bC]).2.2.1 3).mpr (by decide)

/-- Counterexample for C4 as stated: cleaning `[bA (id 7), bB (id 3),
bC (id 7, duplicate)]` returns the id-3 row FIRST (sorted by identifier,
not original order), and the surviving id-7 row carries unit "pc" taken
from the LATER duplicate row `bC` (column-wise first non-null), not the
first row's absent unit — the claim promises original relative order and
the first row's values, i.e. output `[bA, bB]`. -/
theorem clean_balance_order_firstvalues_cex :
    clean_balance [bA, bB, bC] =
      [bB, ⟨some 7, Cell.str "A", Cell.str "pc", Cell.num (mkRat 1 1), Cell.na, Cell.na, Cell.na⟩] ∧
    (clean_balance [bA, bB, bC]).map (fun r => r.s_no) ≠ [some 7, some 3] ∧
    (clean_balance [bA, bB, bC]).map (fun r => r.unit) ≠ [bA.unit, bB.unit] ∧
    clean_balance [bA, bB, bC] ≠ [bA, bB] := by decide

/-- Re-cleaning an aggregated output changes nothing (helper for C9). -/
theorem clean_balance_map_groupFirst (keys : List ℤ) (g : ℤ → List BRow)
    (hnd : keys.Nodup) (hsorted : keys.Sorted (· ≤ ·))
    (hfix : ((keys.map (fun k => groupFirst k (g k))).map coerceOpening).filter rowKept =
      keys.map (fun k => groupFirst k (g k))) :
    clean_balance (keys.map (fun k => groupFirst k (g k))) =
      keys.map (fun k => groupFirst k (g k)) := by
  rw [clean_balance_eq]
  show (List.insertionSort (· ≤ ·)
      (((keys.map (fun k => groupFirst k (g k))).map coerceOpening).filter rowKept
        |>.filterMap (fun r => r.s_no)).dedup).map
    (fun k => groupFirst k
      ((((keys.map (fun k => groupFirst k (g k))).map coerceOpening).filter rowKept).filter
        (fun r => r.s_no == some k))) = keys.map (fun k => groupFirst k (g k))
  rw [hfix, filterMap_map_groupFirst, hnd.dedup, hsorted.insertionSort_eq]
  apply List.map_congr_left
  intro k hk
  rw [filter_map_groupFirst_mem g k keys hnd hk]
  exact groupFirst_self k (groupFirst k (g k)) rfl

/-- C9: the Row Validator is idempotent — applying the cleaning step to
its own output returns that output unchanged: nothing further is
coerced (openings are already numeric), dropped (all rows pass the
filter), or reordered (the identifiers are already distinct and
ascending, so the groupby of singleton groups is the identity). -/
theorem clean_balance_idempotent (rows : List BRow) :
    clean_balance (clean_balance rows) = clean_balance rows := by
  have hkept := clean_balance_mem_kept rows
  have hfix : ((clean_balance rows).map coerceOpening).filter rowKept = clean_balance rows := by
    have hmap : (clean_balance rows).map coerceOpening = (clean_balance rows).map id :=
      List.map_congr_left (fun r hr => coerceOpening_id (hkept r hr).2)
    rw [hmap, List.map_id]
    exact List.filter_eq_self.mpr (fun r hr => rowKept_of_kept (hkept r hr).1 (hkept r hr).2)
  have hnd : (sortedKeys rows).Nodup :=
    ((List.perm_insertionSort _ _).nodup_iff).mpr (List.nodup_dedup _)
  have hsorted : (sortedKeys rows).Sorted (· ≤ ·) := List.sorted_insertionSort _ _
  rw [clean_balance_eq rows] at hfix
  rw [clean_balance_eq rows]
  exact clean_balance_map_groupFirst (sortedKeys rows) (keyGroup rows) hnd hsorted hfix

/-! ### Claim C1 — failure atomicity of the strict import phase -/

/-- A successful strict phase implies every processed row was
convertible. -/
theorem import_balance_rows_ok_convertible (now : Timestamp) :
    ∀ (rows : List BRow) (index : ℕ) (st : Store) (mp : List (ℤ × ℤ)) (cnt : ℕ)
      (out : Store × List (ℤ × ℤ) × ℕ),
      import_balance_rows now rows index st mp cnt = .ok out →
      ∀ r ∈ rows, row_convertible r = true
  | [], _, _, _, _, _ => fun _ r hr => absurd hr (List.not_mem_nil r)
  | r :: rest, index, st, mp, cnt, out => by
    intro h r' hr'
    cases ho : intOrZero r.opening with
    | none => simp [import_balance_rows, ho] at h
    | some o =>
      cases hrc : intOrZero r.receipt with
      | none => simp [import_balance_rows, ho, hrc] at h
      | some rc =>
        cases his : intOrZero r.issue with
        | none => simp [import_balance_rows, ho, hrc, his] at h
        | some isq =>
          cases hba : intOrZero r.balance with
          | none => simp [import_balance_rows, ho, hrc, his, hba] at h
          | some ba =>
            rcases List.mem_cons.mp hr' with rfl | hmem
            · simp [row_convertible, ho, hrc, his, hba]
            · simp only [import_balance_rows, ho, hrc, his, hba] at h
              exact import_balance_rows_ok_convertible now rest _ _ _ _ out h r' hmem

/-- C1 (amended): when some cleaned Balance row raises during the strict
catalog-insert phase, `import_stock` aborts with the row-error response
identifying the row — but it rolls back ONLY the uncommitted inserts of
that phase: because the clear of step 4 was already committed
(`db.commit()` at app.py line 798), the store afterwards is the cleared
state — empty catalog and ledger with reset id counters — NOT the
pre-call contents.  (The catalog is never left partially populated: the
rollback removes every insert of the failed pass.) -/
theorem import_row_failure_rolls_back_to_cleared
    (fallback : String → Option ExDate) (now : Timestamp) (pre : Store)
    (bal : List BRow) (iss rec : MSheet)
    (h : ∃ r ∈ clean_balance bal, row_convertible r = false) :
    ∃ i sku name,
      import_stock fallback now pre bal iss rec = (.rowError i sku name, emptyStore) := by
  rcases h with ⟨r, hr, hconv⟩
  cases hres : import_balance_rows now (clean_balance bal) 0 emptyStore [] 0 with
  | ok out =>
    have hc := import_balance_rows_ok_convertible now (clean_balance bal) 0
      emptyStore [] 0 out hres r hr
    rw [hc] at hconv
    exact absurd hconv (by simp)
  | error err =>
    rcases err with ⟨i, sku, name⟩
    exact ⟨i, sku, name, by simp [import_stock, hres]⟩

/-- Balance sheet whose single (clean) row carries non-numeric text in
its RECEIPT cell: `int("abc")` raises `ValueError` in the strict phase
(app.py line 818). -/
def balBad : List BRow :=
  [⟨some 1, Cell.str "W", Cell.str "PCS", Cell.num (mkRat 5 1), Cell.str "abc", Cell.na, Cell.na⟩]

/-- Witness for C1 (amended): importing `balBad` over the nonempty store
`stW` aborts with a row error and leaves the cleared store. -/
theorem import_row_failure_rolls_back_to_cleared_witness :
    ∃ i sku name,
      import_stock fbNone ts0 stW balBad msEmpty msEmpty =
        (.rowError i sku name, emptyStore) :=
  import_row_failure_rolls_back_to_cleared fbNone ts0 stW balBad msEmpty msEmpty
    ⟨⟨some 1, Cell.str "W", Cell.str "PCS", Cell.num (mkRat 5 1), Cell.str "abc",
        Cell.na, Cell.na⟩,
      by decide, by decide⟩

/-- Counterexample for C1 as stated: the failed reconciliation over the
nonempty pre-state `stW` answers the row error but leaves an EMPTY
catalog and ledger, not the pre-clear contents — the claim promises the
store equals its pre-call state and is "never empty". -/
theorem import_row_failure_not_prestate_cex :
    import_stock fbNone ts0 stW balBad msEmpty msEmpty =
      (.rowError 0 "ITEM-1" "W", emptyStore) ∧
    (import_stock fbNone ts0 stW balBad msEmpty msEmpty).2 ≠ stW ∧
    (import_stock fbNone ts0 stW balBad msEmpty msEmpty).2.products = [] ∧
    stW.products ≠ [] := by decide

/-! ### Claim C7 — initial entries of a successful reconciliation -/

/-- The `initial` entries step 5 is expected to create for a cleaned row
list: one `(product id, quantity)` pair per row whose TRUNCATED opening
is nonzero, product ids assigned sequentially from `firstId` in row
order. -/
def initial_entries_spec (firstId : ℤ) : List BRow → List (ℤ × ℤ)
  | [] => []
  | r :: rest =>
    (match intOrZero r.opening with
     | some q => if q = 0 then [] else [(firstId, q)]
     | none => []) ++ initial_entries_spec (firstId + 1) rest

/-- The strict phase on success: it processes every row, creating one
product per row and appending exactly the expected `initial` entries. -/
theorem import_balance_rows_ok_spec (now : Timestamp) :
    ∀ (rows : List BRow) (index : ℕ) (st : Store) (mp : List (ℤ × ℤ)) (cnt : ℕ)
      (st' : Store) (mp' : List (ℤ × ℤ)) (cnt' : ℕ),
      import_balance_rows now rows index st mp cnt = .ok (st', mp', cnt') →
      cnt' = cnt + rows.length ∧
      st'.products.length = st.products.length + rows.length ∧
      (st'.ledger.filter (fun e => e.type == "initial")).map
          (fun e => (e.product_id, e.quantity_change, e.notes)) =
        (st.ledger.filter (fun e => e.type == "initial")).map
            (fun e => (e.product_id, e.quantity_change, e.notes)) ++
          (initial_entries_spec st.next_product_id rows).map
            (fun x => (x.1, x.2, "Imported opening balance"))
  | [], index, st, mp, cnt, st', mp', cnt' => by
    intro h
    simp only [import_balance_rows, Except.ok.injEq, Prod.mk.injEq] at h
    obtain ⟨h1, _, h3⟩ := h
    subst h1
    subst h3
    simp [initial_entries_spec]
  | r :: rest, index, st, mp, cnt, st', mp', cnt' => by
    intro h
    cases ho : intOrZero r.opening with
    | none => simp [import_balance_rows, ho] at h
    | some o =>
      cases hrc : intOrZero r.receipt with
      | none => simp [import_balance_rows, ho, hrc] at h
      | some rc =>
        cases his : intOrZero r.issue with
        | none => simp [import_balance_rows, ho, hrc, his] at h
        | some isq =>
          cases hba : intOrZero r.balance with
          | none => simp [import_balance_rows, ho, hrc, his, hba] at h
          | some ba =>
            simp only [import_balance_rows, ho, hrc, his, hba] at h
            by_cases hz : o = 0
            · subst hz
              rw [if_pos (show (((0 : ℤ) == 0) = true) from rfl)] at h
              obtain ⟨ih1, ih2, ih3⟩ := import_balance_rows_ok_spec now rest
                (index + 1) _ _ (cnt + 1) st' mp' cnt' h
              refine ⟨?_, ?_, ?_⟩
              · simp only [List.length_cons]
                omega
              · simp only [List.length_cons]
                simp at ih2
                omega
              · rw [ih3]
                simp [initial_entries_spec, ho]
            · rw [if_neg (show ¬ ((o == 0) = true) by simpa using hz)] at h
              obtain ⟨ih1, ih2, ih3⟩ := import_balance_rows_ok_spec now rest
                (index + 1) _ _ (cnt + 1) st' mp' cnt' h
              refine ⟨?_, ?_, ?_⟩
              · simp only [List.length_cons]
                omega
              · simp only [List.length_cons]
                simp [insertTx] at ih2
                omega
              · rw [ih3]
                simp [insertTx, List.filter_append, initial_entries_spec, ho, hz]

/-- The movement replay never touches the products table (cell level). -/
theorem replay_cells_products (fallback : String → Option ExDate) (isIssue : Bool)
    (pid : ℤ) :
    ∀ (cells : List (ExcelVal × Cell)) (st : Store),
      (replay_cells fallback isIssue pid cells st).products = st.products
  | [], _ => rfl
  | (col, v) :: rest, st => by
    cases hq : movementQty v with
    | none =>
      simpa [replay_cells, hq] using replay_cells_products fallback isIssue pid rest st
    | some q =>
      cases hd : parse_excel_date fallback col with
      | none =>
        simpa [replay_cells, hq, hd] using replay_cells_products fallback isIssue pid rest st
      | some d =>
        cases isIssue <;>
          simpa [replay_cells, hq, hd, insertTx] using
            replay_cells_products fallback _ pid rest _

/-- The movement replay inserts only `sale`/`purchase` rows, so the
`initial`-kind slice of the ledger is untouched (cell level). -/
theorem replay_cells_filter_initial (fallback : String → Option ExDate) (isIssue : Bool)
    (pid : ℤ) :
    ∀ (cells : List (ExcelVal × Cell)) (st : Store),
      (replay_cells fallback isIssue pid cells st).ledger.filter
          (fun e => e.type == "initial") =
        st.ledger.filter (fun e => e.type == "initial")
  | [], _ => rfl
  | (col, v) :: rest, st => by
    have hs : (("sale" : String) == "initial") = false := by decide
    have hp : (("purchase" : String) == "initial") = false := by decide
    cases hq : movementQty v with
    | none =>
      simpa [replay_cells, hq] using
        replay_cells_filter_initial fallback isIssue pid rest st
    | some q =>
      cases hd : parse_excel_date fallback col with
      | none =>
        simpa [replay_cells, hq, hd] using
          replay_cells_filter_initial fallback isIssue pid rest st
      | some d =>
        cases isIssue with
        | true =>
          rw [replay_cells]
          simp only [hq, hd]
          rw [replay_cells_filter_initial fallback true pid rest _]
          simp [insertTx, List.filter_append, hs]
        | false =>
          rw [replay_cells]
          simp only [hq, hd]
          rw [replay_cells_filter_initial fallback false pid rest _]
          simp [insertTx, List.filter_append, hp]

/-- Row-level product preservation. -/
theorem replay_row_products (fallback : String → Option ExDate) (isIssue : Bool)
    (mp : List (ℤ × ℤ)) (cols : List ExcelVal) (r : MRow) (st : Store) :
    (replay_row fallback isIssue mp cols r st).products = st.products := by
  cases hs : r.s_no with
  | none => simp [replay_row, hs]
  | some k =>
    by_cases hd : (r.description == Cell.na) = true
    · simp [replay_row, hs, hd]
    · cases hl : lookup_mapping mp k with
      | none => simp [replay_row, hs, hd, hl]
      | some pid => simp [replay_row, hs, hd, hl, replay_cells_products]

/-- Row-level `initial`-slice preservation. -/
theorem replay_row_filter_initial (fallback : String → Option ExDate) (isIssue : Bool)
    (mp : List (ℤ × ℤ)) (cols : List ExcelVal) (r : MRow) (st : Store) :
    (replay_row fallback isIssue mp cols r st).ledger.filter
        (fun e => e.type == "initial") =
      st.ledger.filter (fun e => e.type == "initial") := by
  cases hs : r.s_no with
  | none => simp [replay_row, hs]
  | some k =>
    by_cases hd : (r.description == Cell.na) = true
    · simp [replay_row, hs, hd]
    · cases hl : lookup_mapping mp k with
      | none => simp [replay_row, hs, hd, hl]
      | some pid => simp [replay_row, hs, hd, hl, replay_cells_filter_initial]

/-- Sheet-level product preservation. -/
theorem replay_sheet_products (fallback : String → Option ExDate) (isIssue : Bool)
    (mp : List (ℤ × ℤ)) (cols : List ExcelVal) :
    ∀ (rows : List MRow) (st : Store),
      ((rows.foldl (fun st r => replay_row fallback isIssue mp cols r st) st)).products =
        st.products
  | [], _ => rfl
  | r :: rest, st => by
    rw [List.foldl_cons]
    rw [replay_sheet_products fallback isIssue mp cols rest _]
    exact replay_row_products fallback isIssue mp cols r st

/-- Sheet-level `initial`-slice preservation. -/
theorem replay_sheet_filter_initial (fallback : String → Option ExDate) (isIssue : Bool)
    (mp : List (ℤ × ℤ)) (cols : List ExcelVal) :
    ∀ (rows : List MRow) (st : Store),
      ((rows.foldl (fun st r => replay_row fallback isIssue mp cols r st) st)).ledger.filter
          (fun e => e.type == "initial") =
        st.ledger.filter (fun e => e.type == "initial")
  | [], _ => rfl
  | r :: rest, st => by
    rw [List.foldl_cons]
    rw [replay_sheet_filter_initial fallback isIssue mp cols rest _]
    exact replay_row_filter_initial fallback isIssue mp cols r st

/-- C7 (amended): a successful full reconciliation returns the number of
cleaned Balance rows, creates exactly that many products, and its
`initial` ledger entries are exactly one entry per cleaned row whose
TRUNCATED opening quantity is nonzero — carrying the truncated signed
quantity, the created product's id, and the fixed note — in row order.
(The amendment replaces the claim's "nonzero opening quantity" by
"nonzero truncated opening quantity": step 5 applies Python `int()` to
the float opening, so a cleaned row with the nonzero fractional opening
0.5 truncates to 0 and yields NO initial entry — see the
counterexample.) -/
theorem import_initial_entries (fallback : String → Option ExDate) (now : Timestamp)
    (pre : Store) (bal : List BRow) (iss rec : MSheet) (n : ℕ) (st' : Store)
    (h : import_stock fallback now pre bal iss rec = (.ok n, st')) :
    n = (clean_balance bal).length ∧
    st'.products.length = n ∧
    (st'.ledger.filter (fun e => e.type == "initial")).map
        (fun e => (e.product_id, e.quantity_change, e.notes)) =
      (initial_entries_spec 1 (clean_balance bal)).map
        (fun x => (x.1, x.2, "Imported opening balance")) := by
  cases hres : import_balance_rows now (clean_balance bal) 0 emptyStore [] 0 with
  | error err =>
    rcases err with ⟨i, s, nm⟩
    simp [import_stock, hres] at h
  | ok out =>
    rcases out with ⟨st1, mp, cnt⟩
    obtain ⟨h1, h2, h3⟩ := import_balance_rows_ok_spec now (clean_balance bal) 0
      emptyStore [] 0 st1 mp cnt hres
    simp only [import_stock, hres, Prod.mk.injEq, ImportOutcome.ok.injEq] at h
    obtain ⟨hn, hst⟩ := h
    subst hn
    subst hst
    refine ⟨by simpa using h1, ?_, ?_⟩
    · show (replay_sheet fallback false mp rec (replay_sheet fallback true mp iss st1)).products.length = cnt
      rw [replay_sheet, replay_sheet]
      rw [replay_sheet_products, replay_sheet_products]
      simp [emptyStore] at h2
      omega
    · show ((replay_sheet fallback false mp rec (replay_sheet fallback true mp iss st1)).ledger.filter
          (fun e => e.type == "initial")).map (fun e => (e.product_id, e.quantity_change, e.notes)) = _
      rw [replay_sheet, replay_sheet]
      rw [replay_sheet_filter_initial, replay_sheet_filter_initial]
      simpa [emptyStore] using h3

/-- One-row Balance sheet with integer opening 5. -/
def balW : List BRow :=
  [⟨some 1, Cell.str "W", Cell.str "PCS", Cell.num (mkRat 5 1), Cell.na, Cell.na, Cell.na⟩]

/-- The committed store after successfully importing `balW` with no
movement sheets. -/
def stImp : Store :=
  ⟨[⟨1, "ITEM-1", "W", "PCS", 5, 0, 0, 0⟩],
    [⟨1, 1, "initial", 5, "Imported opening balance", ts0⟩], 2, 2⟩

/-- Witness for C7: importing `balW` succeeds with count 1, one product,
and exactly one initial entry of 5. -/
theorem import_initial_entries_witness :
    1 = (clean_balance balW).length ∧
    stImp.products.length = 1 ∧
    (stImp.ledger.filter (fun e => e.type == "initial")).map
        (fun e => (e.product_id, e.quantity_change, e.notes)) =
      (initial_entries_spec 1 (clean_balance balW)).map
        (fun x => (x.1, x.2, "Imported opening balance")) :=
  import_initial_entries fbNone ts0 emptyStore balW msEmpty msEmpty 1 stImp (by decide)

/-- One-row Balance sheet whose opening is the nonzero fraction 1/2. -/
def balH : List BRow :=
  [⟨some 1, Cell.str "H", Cell.str "kg", Cell.num (mkRat 1 2), Cell.na, Cell.na, Cell.na⟩]

/-- Counterexample for C7 as stated: the cleaned row's opening 0.5 is
nonzero, the import succeeds creating the product, yet ZERO `initial`
entries are created (Python `int(0.5)` is 0) — the claim promises exactly
one entry carrying the (nonzero) quantity. -/
theorem import_fractional_opening_cex :
    (clean_balance balH).map (fun r => r.opening) = [Cell.num (mkRat 1 2)] ∧
    Cell.num (mkRat 1 2) ≠ Cell.num 0 ∧
    (import_stock fbNone ts0 emptyStore balH msEmpty msEmpty).1 = .ok 1 ∧
    ((import_stock fbNone ts0 emptyStore balH msEmpty msEmpty).2.ledger.filter
      (fun e => e.type == "initial")).length = 0 := by decide

/-! ### Claim C3 — the Receipt table's trailing column -/

/-- Observable view of a movement entry: owning product, kind, stored
calendar date, signed quantity. -/
def entryView (e : TxEntry) : ℤ × String × ExDate × ℤ :=
  (e.product_id, e.type, e.timestamp.date, e.quantity_change)

/-- The `(date, signed quantity)` pairs one row's cells contribute in
steps 6-7: one pair per (column label, cell) pair — the trailing column
included — whose value is positive and whose label parses as a date. -/
def movement_entries_spec (fallback : String → Option ExDate) (isIssue : Bool)
    (cells : List (ExcelVal × Cell)) : List (ExDate × ℤ) :=
  cells.filterMap (fun cv =>
    match movementQty cv.2, parse_excel_date fallback cv.1 with
    | some q, some d => some (d, if isIssue then -(pyTrunc q) else pyTrunc q)
    | _, _ => none)

/-- One movement row's contribution: nothing when the identifier or
description is absent or unmapped, else its cells' contributions tagged
with the resolved product id. -/
def row_entries_spec (fallback : String → Option ExDate) (isIssue : Bool)
    (mp : List (ℤ × ℤ)) (cols : List ExcelVal) (r : MRow) : List (ℤ × ExDate × ℤ) :=
  match r.s_no with
  | none => []
  | some k =>
    if r.description == Cell.na then []
    else
      match lookup_mapping mp k with
      | none => []
      | some pid =>
        (movement_entries_spec fallback isIssue (cols.zip r.vals)).map
          (fun x => (pid, x.1, x.2))

/-- A whole sheet's contribution, row by row. -/
def sheet_entries_spec (fallback : String → Option ExDate) (isIssue : Bool)
    (mp : List (ℤ × ℤ)) (sheet : MSheet) : List (ℤ × ExDate × ℤ) :=
  sheet.rows.flatMap (row_entries_spec fallback isIssue mp sheet.date_cols)

/-- Cell-level characterization of the replay: the appended entries are
exactly the spec's pairs, in column order, for ALL cells. -/
theorem replay_cells_ledger_view (fallback : String → Option ExDate) (isIssue : Bool)
    (pid : ℤ) :
    ∀ (cells : List (ExcelVal × Cell)) (st : Store),
      (replay_cells fallback isIssue pid cells st).ledger.map entryView =
        st.ledger.map entryView ++
          (movement_entries_spec fallback isIssue cells).map
            (fun x => (pid, (if isIssue then "sale" else "purchase"), x.1, x.2))
  | [], st => by simp [replay_cells, movement_entries_spec]
  | (col, v) :: rest, st => by
    cases hq : movementQty v with
    | none =>
      rw [replay_cells]
      simp only [hq]
      rw [replay_cells_ledger_view fallback isIssue pid rest st]
      simp [movement_entries_spec, List.filterMap_cons, hq]
    | some q =>
      cases hd : parse_excel_date fallback col with
      | none =>
        rw [replay_cells]
        simp only [hq, hd]
        rw [replay_cells_ledger_view fallback isIssue pid rest st]
        simp [movement_entries_spec, List.filterMap_cons, hq, hd]
      | some d =>
        cases isIssue with
        | true =>
          rw [replay_cells]
          simp only [hq, hd, if_true]
          rw [replay_cells_ledger_view fallback true pid rest _]
          simp [movement_entries_spec, List.filterMap_cons, hq, hd, insertTx, entryView]
        | false =>
          rw [replay_cells]
          simp only [hq, hd, if_false]
          rw [replay_cells_ledger_view fallback false pid rest _]
          simp [movement_entries_spec, List.filterMap_cons, hq, hd, insertTx, entryView]

/-- Row-level characterization of the replay. -/
theorem replay_row_ledger_view (fallback : String → Option ExDate) (isIssue : Bool)
    (mp : List (ℤ × ℤ)) (cols : List ExcelVal) (r : MRow) (st : Store) :
    (replay_row fallback isIssue mp cols r st).ledger.map entryView =
      st.ledger.map entryView ++
        (row_entries_spec fallback isIssue mp cols r).map
          (fun x => (x.1, (if isIssue then "sale" else "purchase"), x.2.1, x.2.2)) := by
  cases hs : r.s_no with
  | none => simp [replay_row, row_entries_spec, hs]
  | some k =>
    by_cases hd : (r.description == Cell.na) = true
    · simp [replay_row, row_entries_spec, hs, hd]
    · cases hl : lookup_mapping mp k with
      | none => simp [replay_row, row_entries_spec, hs, hd, hl]
      | some pid =>
        simp only [replay_row, row_entries_spec, hs, hd, hl]
        rw [if_neg Bool.false_ne_true, if_neg Bool.false_ne_true]
        rw [replay_cells_ledger_view]
        simp [Function.comp]

/-- Sheet-level characterization of the replay. -/
theorem replay_sheet_ledger_view (fallback : String → Option ExDate) (isIssue : Bool)
    (mp : List (ℤ × ℤ)) (cols : List ExcelVal) :
    ∀ (rows : List MRow) (st : Store),
      ((rows.foldl (fun st r => replay_row fallback isIssue mp cols r st) st)).ledger.map
          entryView =
        st.ledger.map entryView ++
          (rows.flatMap (row_entries_spec fallback isIssue mp cols)).map
            (fun x => (x.1, (if isIssue then "sale" else "purchase"), x.2.1, x.2.2))
  | [], st => by simp
  | r :: rest, st => by
    rw [List.foldl_cons]
    rw [replay_sheet_ledger_view fallback isIssue mp cols rest _]
    rw [replay_row_ledger_view]
    simp [List.flatMap_cons]

/-- C3 (amended): the movement import of the Receipt table iterates EVERY
column after the first three — there is no positional exclusion of the
trailing aggregate: (i) the purchase entries produced are exactly one per
(column, cell) pair, the last column included, whose value is positive
and whose header parses as a date; (ii) consequently the claim's example
holds — with trailing header "TOTAL" (which fails date parsing, the
lenient fallback included) only the "1.1.25" column produces an entry;
(iii) but the exclusion is by parse failure, NOT by position: when the
trailing column's header is itself a parseable date, the trailing column
DOES produce purchase entries, contrary to the claim. -/
theorem receipt_trailing_column_by_parse_not_position
    (fallback : String → Option ExDate) (mp : List (ℤ × ℤ)) (sheet : MSheet)
    (st : Store) (hfb : fallback "TOTAL" = none) :
    ((replay_sheet fallback false mp sheet st).ledger.map entryView =
      st.ledger.map entryView ++
        (sheet_entries_spec fallback false mp sheet).map
          (fun x => (x.1, "purchase", x.2.1, x.2.2))) ∧
    (∀ (v1 vt : Cell) (q : ℚ), movementQty v1 = some q →
      movement_entries_spec fallback false
          [(ExcelVal.str "1.1.25", v1), (ExcelVal.str "TOTAL", vt)] =
        [(⟨2025, 1, 1⟩, pyTrunc q)]) ∧
    (∀ (v1 vt : Cell) (q qt : ℚ), movementQty v1 = some q → movementQty vt = some qt →
      movement_entries_spec fallback false
          [(ExcelVal.str "1.1.25", v1), (ExcelVal.str "2.1.25", vt)] =
        [(⟨2025, 1, 1⟩, pyTrunc q), (⟨2025, 1, 2⟩, pyTrunc qt)]) := by
  have h11 : parse_excel_date fallback (ExcelVal.str "1.1.25") = some ⟨2025, 1, 1⟩ := by
    rw [parse_excel_date_str]
    have h1 : first_format date_formats (pyStrip "1.1.25").data = some ⟨2025, 1, 1⟩ := by
      decide
    have h0 : (pyStrip "1.1.25").data.isEmpty = false := by decide
    rw [h1, h0]
    simp
  have h21 : parse_excel_date fallback (ExcelVal.str "2.1.25") = some ⟨2025, 1, 2⟩ := by
    rw [parse_excel_date_str]
    have h1 : first_format date_formats (pyStrip "2.1.25").data = some ⟨2025, 1, 2⟩ := by
      decide
    have h0 : (pyStrip "2.1.25").data.isEmpty = false := by decide
    rw [h1, h0]
    simp
  have hT : parse_excel_date fallback (ExcelVal.str "TOTAL") = none := by
    rw [parse_excel_date_str]
    have h1 : first_format date_formats (pyStrip "TOTAL").data = none := by decide
    have h2 : pyStrip "TOTAL" = "TOTAL" := by decide
    have h0 : (pyStrip "TOTAL").data.isEmpty = false := by decide
    rw [h1, h0, h2, hfb]
    simp
  refine ⟨?_, ?_, ?_⟩
  · rw [replay_sheet]
    rw [replay_sheet_ledger_view]
    simp [sheet_entries_spec]
  · intro v1 vt q hq
    simp only [movement_entries_spec, List.filterMap_cons, List.filterMap_nil, hq, h11, hT]
    cases hvt : movementQty vt <;> simp
  · intro v1 vt q qt hq hqt
    simp only [movement_entries_spec, List.filterMap_cons, List.filterMap_nil, hq, hqt,
      h11, h21]
    simp

/-- Witness for C3 (amended): with positive values 3 and 4 under headers
"1.1.25" and a trailing parseable "2.1.25", BOTH columns contribute. -/
theorem receipt_trailing_column_by_parse_not_position_witness :
    movement_entries_spec fbNone false
        [(ExcelVal.str "1.1.25", Cell.num (mkRat 3 1)), (ExcelVal.str "2.1.25", Cell.num (mkRat 4 1))] =
      [(⟨2025, 1, 1⟩, 3), (⟨2025, 1, 2⟩, 4)] :=
  (receipt_trailing_column_by_parse_not_position fbNone [] msEmpty emptyStore rfl).2.2
    (Cell.num (mkRat 3 1)) (Cell.num (mkRat 4 1)) (mkRat 3 1) (mkRat 4 1)
    (by decide) (by decide)

/-- Balance sheet for the C3 counterexample: one item. -/
def balC3 : List BRow :=
  [⟨some 1, Cell.str "W", Cell.str "PCS", Cell.num (mkRat 5 1), Cell.na, Cell.na, Cell.na⟩]

/-- Receipt sheet whose trailing (last-position) column header "2.1.25"
is itself a parseable date, with positive values in both columns. -/
def recC3 : MSheet :=
  ⟨[ExcelVal.str "1.1.25", ExcelVal.str "2.1.25"],
    [⟨some 1, Cell.str "W", [Cell.num (mkRat 5 1), Cell.num (mkRat 7 1)]⟩]⟩

/-- Counterexample for C3 as stated: importing `recC3` produces a
purchase entry dated 2025-01-02 from the LAST column — whose header is a
parseable date — whereas the claim promises that date-column iteration
excludes the last column by position regardless of its header text. -/
theorem receipt_trailing_date_header_imported_cex :
    recC3.date_cols.getLast? = some (ExcelVal.str "2.1.25") ∧
    parse_excel_date fbNone (ExcelVal.str "2.1.25") = some ⟨2025, 1, 2⟩ ∧
    ((import_stock fbNone ts0 emptyStore balC3 msEmpty recC3).2.ledger.filter
        (fun e => e.type == "purchase")).map (fun e => (e.timestamp.date, e.quantity_change)) =
      [(⟨2025, 1, 1⟩, 5), (⟨2025, 1, 2⟩, 7)] := by decide
